import Mathlib

/-!
Verification of the lead outcome-stage subsystem of the `leadops-agent`
backend: the stage transition engine (`outcome_service.py`,
`outcome_stage_repository.py`), the reply classifier
(`reply_classification_service.py`), and the adaptive scoring-weight tuner
(`scoring_config_service.py`, `scoring_config_repository.py`).

Embedding conventions:
* Python floats are modelled as exact rationals (`ℚ`); every constant in the
  code (0.1, 0.05, 0.01, the default weights) is an exact decimal.
* Python dicts (weights, thresholds) are association lists preserving
  insertion order, as CPython dicts do.
* The database session is a record of lists; `session.add` appends, and
  queries ordered by a monotone timestamp read the lists in order.  Row
  timestamps come from a `now` argument supplied by the caller.
* `re.search` / `re.findall` are modelled by a small backtracking regular
  expression engine whose candidate order mirrors CPython's `re`
  (ordered alternation, greedy quantifiers, leftmost match), and each
  pattern literal from the source is transcribed into its syntax tree.
* Python exceptions (`ValueError`) are modelled with `Except`: every raise
  site in the modelled code occurs before any mutation of the session, so an
  erroring operation leaves the state unchanged.
-/

namespace LeadOps

/-- `OutcomeStage` enum from `app/models/enums.py`. -/
inductive OutcomeStage where
  | EMAIL_SENT
  | RESPONDED
  | NO_RESPONSE
  | BOOKED_DEMO
  | CLOSED_WON
  | CLOSED_LOST
  | DISQUALIFIED
deriving DecidableEq

/-- The `.value` string of each `OutcomeStage` member. -/
def OutcomeStage.str : OutcomeStage → String
  | .EMAIL_SENT => "EMAIL_SENT"
  | .RESPONDED => "RESPONDED"
  | .NO_RESPONSE => "NO_RESPONSE"
  | .BOOKED_DEMO => "BOOKED_DEMO"
  | .CLOSED_WON => "CLOSED_WON"
  | .CLOSED_LOST => "CLOSED_LOST"
  | .DISQUALIFIED => "DISQUALIFIED"

/-- `ReplyClassification` enum from `app/models/enums.py`. -/
inductive ReplyClassification where
  | INTERESTED_BOOK_DEMO
  | NOT_INTERESTED
  | QUESTION
  | OUT_OF_OFFICE
  | UNSUBSCRIBE
  | UNCLEAR
deriving DecidableEq

/-- The `.value` string of each `ReplyClassification` member. -/
def ReplyClassification.str : ReplyClassification → String
  | .INTERESTED_BOOK_DEMO => "INTERESTED_BOOK_DEMO"
  | .NOT_INTERESTED => "NOT_INTERESTED"
  | .QUESTION => "QUESTION"
  | .OUT_OF_OFFICE => "OUT_OF_OFFICE"
  | .UNSUBSCRIBE => "UNSUBSCRIBE"
  | .UNCLEAR => "UNCLEAR"

/-! ## A small regular-expression engine

Backtracking matcher for the fragment of Python `re` used by the
classifier patterns: literals, character classes, ordered alternation,
greedy `?`/`*`/`+`/bounded repetition, and the word boundary `\b`.
A match position is the pair (previous character, remaining input); the
matcher returns the list of positions after a match, in CPython's
backtracking preference order (first element = the match `re` would pick). -/

inductive RE where
  | eps : RE
  | chr : Char → RE
  | cls : (Char → Bool) → RE
  | cat : RE → RE → RE
  | alt : RE → RE → RE
  | star : RE → RE
  | wordB : RE

/-- Python `\w` (ASCII range, which covers all texts in scope). -/
def isWordChar (c : Char) : Bool := c.isAlphanum || c == '_'

/-- Is there a `\b` boundary between previous character `p` and the input `s`? -/
def boundaryOk (p : Option Char) (s : List Char) : Bool :=
  let left := match p with | some c => isWordChar c | none => false
  let right := match s with | c :: _ => isWordChar c | [] => false
  left != right

/-- Greedy iteration of a `star` body (the body matcher is passed as a
function); `fuel` bounds the number of iterations, and since every starred
body in the transcribed patterns consumes at least one character,
`|input| + 1` iterations are enough.  Results are in backtracking
preference order (more iterations first = greedy). -/
def runMany (body : Option Char → List Char → List (Option Char × List Char))
    (p : Option Char) (s : List Char) : Nat → List (Option Char × List Char)
  | 0 => [(p, s)]
  | fuel + 1 =>
    ((body p s).flatMap (fun st => runMany body st.1 st.2 fuel)) ++ [(p, s)]

/-- Run a regex at one position.  A position is (previous character,
remaining input); results are the positions after a match, in CPython's
backtracking preference order (first element = the match `re` would pick). -/
def RE.run : RE → Option Char → List Char → List (Option Char × List Char)
  | .eps, p, s => [(p, s)]
  | .chr c, _, s =>
    match s with
    | [] => []
    | x :: xs => if x == c then [(some x, xs)] else []
  | .cls f, _, s =>
    match s with
    | [] => []
    | x :: xs => if f x then [(some x, xs)] else []
  | .cat a b, p, s =>
    (RE.run a p s).flatMap (fun st => RE.run b st.1 st.2)
  | .alt a b, p, s => RE.run a p s ++ RE.run b p s
  | .star r, p, s => runMany (fun p' s' => RE.run r p' s') p s (s.length + 1)
  | .wordB, p, s => if boundaryOk p s then [(p, s)] else []

/-- `re.search` scanning loop: try to match at each start position from the
left; `p` is the character before the current position. -/
def searchAux (re : RE) (p : Option Char) (s : List Char) : Bool :=
  if (re.run p s).isEmpty then
    match s with
    | [] => false
    | c :: cs => searchAux re (some c) cs
  else true

/-- `text.lower()` as a character list (`Char.toLower` covers the ASCII
range, which is what the source texts use). -/
def strLower (text : String) : List Char := text.data.map Char.toLower

/-- `re.search(pattern, chars)` as a Boolean. -/
def reSearch (re : RE) (chars : List Char) : Bool :=
  searchAux re none chars

/-- `_matches_any(text, patterns)` from `reply_classification_service.py`:
lowercase the text, then search each pattern. -/
def _matches_any (text : String) (patterns : List RE) : Bool :=
  let text_lower := strLower text
  patterns.any (fun p => reSearch p text_lower)

/-- `re.findall` scanning loop: non-overlapping matches from the left, each
the engine's preferred match at the first position that matches. `fuel`
decreases at every step (`s.length + 1` at the start is enough). -/
def findAllAux (re : RE) (p : Option Char) (s : List Char) (fuel : Nat) :
    List String :=
  match fuel with
  | 0 => []
  | fuel + 1 =>
    match (re.run p s).head? with
    | some (_, rest) =>
      let n := s.length - rest.length
      if n == 0 then
        -- empty match (unreachable for the transcribed patterns): advance one
        match s with
        | [] => []
        | c :: cs => findAllAux re (some c) cs fuel
      else
        let consumed := s.take n
        String.mk consumed ::
          findAllAux re (consumed.getLast?.orElse (fun _ => p)) rest fuel
    | none =>
      match s with
      | [] => []
      | c :: cs => findAllAux re (some c) cs fuel

/-- `re.findall(pattern, text)` (patterns with only non-capturing groups, so
each element is the whole match). -/
def reFindall (re : RE) (text : List Char) : List String :=
  findAllAux re none text (text.length + 1)

/-! ### Pattern combinators used to transcribe the source pattern literals -/

/-- A literal string. -/
def rstr (s : String) : RE :=
  s.toList.foldr (fun c r => RE.cat (RE.chr c) r) RE.eps

/-- Ordered alternation of a list (empty list is unused). -/
def raltL : List RE → RE
  | [] => RE.eps
  | [r] => r
  | r :: rest => RE.alt r (raltL rest)

/-- `(?:s1|s2|...)` over string literals. -/
def rAltStr (ss : List String) : RE := raltL (ss.map rstr)

/-- Greedy `?`. -/
def ropt (r : RE) : RE := RE.alt r RE.eps

/-- Concatenation of a list. -/
def rcat (rs : List RE) : RE := rs.foldr RE.cat RE.eps

/-- Greedy `+`. -/
def rplus (r : RE) : RE := RE.cat r (RE.star r)

/-- Greedy `{1,2}`. -/
def rtimes12 (r : RE) : RE := RE.cat r (ropt r)

/-- Python `\d`. -/
def rdigit : RE := RE.cls Char.isDigit

/-- Python `\s`. -/
def rspace : RE := RE.cls (fun c =>
  c == ' ' || c == '\t' || c == '\n' || c == '\r' || c == '\x0b' || c == '\x0c')

/-- `[- ]`. -/
def rdashSpace : RE := RE.cls (fun c => c == '-' || c == ' ')

/-! ### The pattern families from `reply_classification_service.py` -/

/-- `OOO_PATTERNS`. -/
def OOO_PATTERNS : List RE := [
  rcat [rstr "out of ", ropt (rstr "the "), rstr "office"],
  rcat [rstr "on ", ropt (rAltStr ["annual ", "parental "]), rstr "leave"],
  rstr "on vacation",
  rcat [rstr "away from ", ropt (rstr "my "), rAltStr ["desk", "email"]],
  rstr "limited access to email",
  rcat [rstr "auto", ropt rdashSpace, rstr "reply"],
  rstr "automatic reply",
  rcat [rstr "i am currently ", rAltStr ["out", "away", "unavailable"]],
  rcat [rstr "will ", rAltStr ["return", "be back", "respond"], rstr " ",
    rAltStr ["on", "after"]]]

/-- `UNSUBSCRIBE_PATTERNS`. -/
def UNSUBSCRIBE_PATTERNS : List RE := [
  rstr "unsubscribe",
  rstr "remove me",
  rcat [rstr "stop ", rAltStr ["emailing", "contacting", "sending"]],
  rcat [rstr "opt", ropt rdashSpace, rstr "out"],
  rcat [rstr "do not ", rAltStr ["contact", "email", "send"]],
  rstr "take me off"]

/-- `NOT_INTERESTED_PATTERNS`. -/
def NOT_INTERESTED_PATTERNS : List RE := [
  rstr "not interested",
  rcat [rstr "no thank", rAltStr ["s", " you"]],
  rcat [rstr "not ", ropt (rAltStr ["a good ", "the right "]), rstr "fit"],
  rstr "pass on this",
  rcat [rstr "we", rAltStr ["'re", " are"], rstr " ", ropt (rstr "all "),
    rstr "set"],
  rcat [rstr "already have a ", rAltStr ["solution", "vendor", "provider"]],
  rcat [rstr "not ", rAltStr ["looking", "in the market"]],
  rstr "decline"]

/-- `INTERESTED_PATTERNS`. -/
def INTERESTED_PATTERNS : List RE := [
  rcat [rAltStr ["schedule", "book", "set up"], rstr " ", ropt (rstr "a "),
    rAltStr ["demo", "meeting", "call", "chat"]],
  rcat [rAltStr ["love", "like", "want"], rstr " to ",
    rAltStr ["see", "learn", "schedule", "chat", "discuss", "meet"]],
  rcat [rAltStr ["let's", "lets", "can we"], rstr " ",
    rAltStr ["set up", "schedule", "book", "find", "arrange"]],
  rcat [RE.alt (rcat [rstr "i", ropt (RE.chr '\''), rstr "m"])
      (rcat [rstr "we", rAltStr ["'re", " are"]]),
    rstr " interested"],
  rcat [rstr "sound", ropt (RE.chr 's'), rstr " ",
    rAltStr ["great", "good", "interesting"]],
  rcat [rstr "free ", rAltStr ["on", "next", "this"]],
  rcat [rAltStr ["available", "availability"], rstr " ",
    rAltStr ["on", "next", "this", "for"]],
  rcat [rAltStr ["next", "this"], rstr " ",
    rAltStr ["monday", "tuesday", "wednesday", "thursday", "friday", "week"]]]

/-- `QUESTION_PATTERNS`. -/
def QUESTION_PATTERNS : List RE := [
  RE.chr '?',
  rcat [rAltStr ["can", "could", "do", "does", "how", "what", "which",
      "where", "when", "why", "is", "are"], rstr " ",
    rAltStr ["you", "your", "it", "this", "the"]],
  rstr "tell me more",
  rcat [rstr "more ", rAltStr ["info", "information", "details"]],
  rstr "curious about"]

/-- Month names with optional long forms, from the date patterns. -/
def rmonth : RE := raltL [
  rcat [rstr "jan", ropt (rstr "uary")],
  rcat [rstr "feb", ropt (rstr "ruary")],
  rcat [rstr "mar", ropt (rstr "ch")],
  rcat [rstr "apr", ropt (rstr "il")],
  rstr "may",
  rcat [rstr "jun", ropt (rstr "e")],
  rcat [rstr "jul", ropt (rstr "y")],
  rcat [rstr "aug", ropt (rstr "ust")],
  rcat [rstr "sep", ropt (rstr "tember")],
  rcat [rstr "oct", ropt (rstr "ober")],
  rcat [rstr "nov", ropt (rstr "ember")],
  rcat [rstr "dec", ropt (rstr "ember")]]

/-- Ordinal suffixes `(?:st|nd|rd|th)?`. -/
def rordinal : RE := ropt (rAltStr ["st", "nd", "rd", "th"])

/-- The `date_patterns` list inside `_extract_dates_from_text`. -/
def DATE_PATTERNS : List RE := [
  rcat [RE.wordB, rAltStr ["monday", "tuesday", "wednesday", "thursday",
    "friday", "saturday", "sunday"], RE.wordB],
  rcat [RE.wordB, rAltStr ["next", "this"], rstr " ",
    rAltStr ["monday", "tuesday", "wednesday", "thursday", "friday", "week"],
    RE.wordB],
  rcat [RE.wordB, rmonth, rplus rspace, rtimes12 rdigit, rordinal, RE.wordB],
  rcat [RE.wordB, rtimes12 rdigit, rordinal, rplus rspace,
    ropt (rcat [rstr "of", rplus rspace]), rmonth, RE.wordB],
  rcat [RE.wordB, rtimes12 rdigit, RE.chr '/', rtimes12 rdigit,
    ropt (rcat [RE.chr '/', rcat [rdigit, rdigit, ropt rdigit, ropt rdigit]]),
    RE.wordB]]

/-- `_extract_dates_from_text(text)`: findall of each date pattern over the
lowercased text, concatenated in pattern order. -/
def _extract_dates_from_text (text : String) : List String :=
  let text_lower := strLower text
  DATE_PATTERNS.flatMap (fun p => reFindall p text_lower)

/-- Structured classification output (`ReplyClassificationResult` in
`app/models/llm_schemas.py`). -/
structure ReplyClassificationResult where
  classification : ReplyClassification
  confidence : ℚ
  reasoning : String
  extracted_dates : List String
  is_auto_reply : Bool
deriving DecidableEq

/-- `ReplyClassificationService._classify_with_rules`: the pattern families
in priority order, first match wins, fallback UNCLEAR. -/
def _classify_with_rules (reply_body : String) : ReplyClassificationResult :=
  if _matches_any reply_body OOO_PATTERNS then
    { classification := .OUT_OF_OFFICE
      confidence := 85/100
      reasoning := "Reply matches out-of-office patterns"
      extracted_dates := _extract_dates_from_text reply_body
      is_auto_reply := true }
  else if _matches_any reply_body UNSUBSCRIBE_PATTERNS then
    { classification := .UNSUBSCRIBE
      confidence := 9/10
      reasoning := "Reply contains unsubscribe/opt-out language"
      extracted_dates := []
      is_auto_reply := false }
  else if _matches_any reply_body NOT_INTERESTED_PATTERNS then
    { classification := .NOT_INTERESTED
      confidence := 8/10
      reasoning := "Reply contains not-interested language"
      extracted_dates := []
      is_auto_reply := false }
  else if _matches_any reply_body INTERESTED_PATTERNS then
    { classification := .INTERESTED_BOOK_DEMO
      confidence := 75/100
      reasoning := "Reply contains interest/scheduling language"
      extracted_dates := _extract_dates_from_text reply_body
      is_auto_reply := false }
  else if _matches_any reply_body QUESTION_PATTERNS then
    { classification := .QUESTION
      confidence := 7/10
      reasoning := "Reply contains question patterns"
      extracted_dates := []
      is_auto_reply := false }
  else
    { classification := .UNCLEAR
      confidence := 1/2
      reasoning := "Reply does not match any known patterns"
      extracted_dates := []
      is_auto_reply := false }

/-! ## Data model (`app/models/orm.py`, restricted to the fields the
modelled code reads or writes) -/

/-- JSON-ish payload values (activity payloads, notification metadata). -/
inductive JVal where
  | s (v : String)
  | i (v : Int)
  | q (v : ℚ)
  | b (v : Bool)
  | strs (v : List String)
  | nil
deriving DecidableEq

/-- `Lead`, restricted to the fields the outcome subsystem touches.
Timestamps are integers (seconds). -/
structure Lead where
  id : Nat
  first_name : String
  last_name : String
  score_value : Option Int
  current_outcome_stage : Option OutcomeStage
  outcome_stage_entered_at : Option Int
deriving DecidableEq

/-- `LeadOutcomeStage` history row. -/
structure LeadOutcomeStage where
  lead_id : Nat
  stage : OutcomeStage
  previous_stage : Option OutcomeStage
  reason : String
  triggered_by : Option String
  notes : Option String
  metadata_json : Option (List (String × String))
  entered_at : Int
  exited_at : Option Int
deriving DecidableEq

/-- `ActivityLog` row. -/
structure ActivityLog where
  lead_id : Nat
  type : String
  payload : List (String × JVal)
deriving DecidableEq

/-- `ReplyClassificationRecord` row (override fields are never written by
the modelled operations and are omitted). -/
structure ReplyClassificationRecord where
  lead_id : Nat
  reply_body : String
  classification : ReplyClassification
  confidence : ℚ
  reasoning : String
  extracted_dates : List String
  is_auto_reply : Bool
deriving DecidableEq

/-- `Notification` row. -/
structure Notification where
  lead_id : Option Nat
  type : String
  title : String
  body : String
  metadata_json : List (String × JVal)
deriving DecidableEq

/-- `ScoringConfig` row.  Weights and thresholds are insertion-ordered
association lists (CPython dict semantics); floats are exact rationals. -/
structure ScoringConfig where
  weights : List (String × ℚ)
  thresholds : List (String × ℚ)
  updated_by : Option String
deriving DecidableEq

/-- The database session: one list per table, `session.add` appends.
`scoring_configs` is kept most-recent-first, so `get_active`'s
`ORDER BY updated_at DESC LIMIT 1` is the head (row timestamps come from
the callers' monotone `now`). -/
structure DB where
  leads : List Lead
  outcome_stages : List LeadOutcomeStage
  activities : List ActivityLog
  reply_classifications : List ReplyClassificationRecord
  notifications : List Notification
  scoring_configs : List ScoringConfig
deriving DecidableEq

/-- `ValueError` raise sites in the modelled code.  `invalidTransition`
carries what the message interpolates: the current stage and the sorted
valid-next list (`', '.join(sorted(valid_next))`). -/
inductive Err where
  | leadNotFound (lead_id : Nat)
  | noStageYet
  | invalidTransition (current : OutcomeStage) (validSorted : List String)
deriving DecidableEq

/-- `session.get(Lead, lead_id)`. -/
def DB.getLead (db : DB) (lead_id : Nat) : Option Lead :=
  db.leads.find? (fun l => l.id == lead_id)

/-- Write back a mutated `Lead` row (keyed by primary key). -/
def DB.putLead (db : DB) (l : Lead) : DB :=
  { db with leads := db.leads.map (fun x => if x.id == l.id then l else x) }

/-! ## `outcome_stage_repository.py` -/

/-- `VALID_TRANSITIONS` (the source dict covers all seven stages, so its
`.get(current, set())` fallback is never taken). -/
def VALID_TRANSITIONS : OutcomeStage → List OutcomeStage
  | .EMAIL_SENT => [.RESPONDED, .NO_RESPONSE, .DISQUALIFIED, .CLOSED_LOST]
  | .RESPONDED => [.BOOKED_DEMO, .CLOSED_LOST, .DISQUALIFIED]
  | .BOOKED_DEMO => [.CLOSED_WON, .CLOSED_LOST]
  | .NO_RESPONSE => [.RESPONDED]
  | .CLOSED_WON => []
  | .CLOSED_LOST => [.RESPONDED]
  | .DISQUALIFIED => [.RESPONDED]

/-- Lexicographic string order by code point (Python `sorted` on `str`). -/
def leChars : List Char → List Char → Bool
  | [], _ => true
  | _ :: _, [] => false
  | a :: as, b :: bs => if a == b then leChars as bs else decide (a.val < b.val)

/-- Insert into an ascending list (insertion sort step). -/
def insertSorted (x : String) : List String → List String
  | [] => [x]
  | y :: ys => if leChars x.data y.data then x :: y :: ys else y :: insertSorted x ys

/-- Python `sorted` for a list of strings. -/
def sortedStrs (l : List String) : List String := l.foldr insertSorted []

/-- `sorted(valid_next)` over the stage value strings. -/
def sortedValidTransitions (current : OutcomeStage) : List String :=
  sortedStrs ((VALID_TRANSITIONS current).map OutcomeStage.str)

/-- Python `s[:n]`. -/
def strTake (s : String) (n : Nat) : String := String.mk (s.data.take n)

/-- Close the first history row matching
`(lead_id, stage == prev, exited_at IS NULL)` by setting `exited_at = now`
(the `.first()` of the close query in `transition_to_stage`). -/
def closeFirstOpen (lead_id : Nat) (prev : OutcomeStage) (now : Int) :
    List LeadOutcomeStage → List LeadOutcomeStage
  | [] => []
  | r :: rs =>
    if r.lead_id == lead_id && r.stage == prev && r.exited_at.isNone then
      { r with exited_at := some now } :: rs
    else
      r :: closeFirstOpen lead_id prev now rs

/-- `OutcomeStageRepository.transition_to_stage`: close the open row, insert
the new open row, update the Lead's two denormalized fields. -/
def transition_to_stage (db : DB) (now : Int) (lead_id : Nat)
    (new_stage : OutcomeStage) (reason : String) (triggered_by : Option String)
    (notes : Option String) (metadata : Option (List (String × String))) :
    Except Err (DB × LeadOutcomeStage) :=
  match db.getLead lead_id with
  | none => .error (.leadNotFound lead_id)
  | some lead =>
    let previous_stage := lead.current_outcome_stage
    let history :=
      match previous_stage with
      | none => db.outcome_stages
      | some p => closeFirstOpen lead_id p now db.outcome_stages
    let new_record : LeadOutcomeStage :=
      { lead_id := lead_id, stage := new_stage, previous_stage := previous_stage,
        reason := reason, triggered_by := triggered_by, notes := notes,
        metadata_json := metadata, entered_at := now, exited_at := none }
    let lead' := { lead with
      current_outcome_stage := some new_stage,
      outcome_stage_entered_at := some now }
    .ok ({ db.putLead lead' with outcome_stages := history ++ [new_record] },
      new_record)

/-- Stable insertion for ordering history by `entered_at` ascending. -/
def insertByEnteredAt (r : LeadOutcomeStage) :
    List LeadOutcomeStage → List LeadOutcomeStage
  | [] => [r]
  | x :: xs =>
    if x.entered_at ≤ r.entered_at then x :: insertByEnteredAt r xs
    else r :: x :: xs

/-- `OutcomeStageRepository.get_stage_history`: the lead's rows ordered by
`entered_at` ascending (stable). -/
def get_stage_history (db : DB) (lead_id : Nat) : List LeadOutcomeStage :=
  (db.outcome_stages.filter (fun r => r.lead_id == lead_id)).foldl
    (fun acc r => insertByEnteredAt r acc) []

/-- `OutcomeStageRepository.get_stale_email_sent`: leads in `EMAIL_SENT`
whose `outcome_stage_entered_at <= now - timedelta(days=days)` (SQL `NULL`
comparisons select nothing). -/
def get_stale_email_sent (db : DB) (now : Int) (days : Int) : List Lead :=
  let cutoff := now - days * 86400
  db.leads.filter (fun l =>
    l.current_outcome_stage == some .EMAIL_SENT &&
    match l.outcome_stage_entered_at with
    | some t => decide (t ≤ cutoff)
    | none => false)

/-! ## `scoring_config_repository.py` and `scoring_config_service.py` -/

/-- `DEFAULT_WEIGHTS`. -/
def DEFAULT_WEIGHTS : List (String × ℚ) :=
  [("urgency", 25/100), ("budget", 20/100), ("company_size", 15/100),
   ("pain_point", 15/100), ("job_title", 10/100), ("industry", 10/100),
   ("source", 5/100)]

/-- `DEFAULT_THRESHOLDS`. -/
def DEFAULT_THRESHOLDS : List (String × ℚ) := [("hot", 70), ("warm", 40)]

/-- `ScoringConfigRepository.get_active`: newest row, creating the default
row first if the table is empty. -/
def get_active (db : DB) : DB × ScoringConfig :=
  match db.scoring_configs.head? with
  | some config => (db, config)
  | none =>
    let config : ScoringConfig :=
      { weights := DEFAULT_WEIGHTS, thresholds := DEFAULT_THRESHOLDS,
        updated_by := none }
    ({ db with scoring_configs := [config] }, config)

/-- Python `dict.get`. -/
def dictGet (m : List (String × ℚ)) (k : String) : Option ℚ :=
  (m.find? (fun kv => kv.1 == k)).map (fun kv => kv.2)

/-- Python `base.copy()` followed by `.update(upd)`: existing keys are
overwritten in place, new keys appended in `upd` order. -/
def dictUpdate (base upd : List (String × ℚ)) : List (String × ℚ) :=
  base.map (fun kv =>
    match dictGet upd kv.1 with
    | some v => (kv.1, v)
    | none => kv) ++
  upd.filter (fun kv => (dictGet base kv.1).isNone)

/-- `ScoringConfigService.update_config`: merge the provided partial maps
onto the active config and persist a brand-new row.  (Python guards the
merges with dict truthiness, `if weights:`; merging the empty dict is the
identity, so `some []` and `none` coincide here as there.) -/
def update_config (db : DB) (weights : Option (List (String × ℚ)))
    (thresholds : Option (List (String × ℚ))) (user : String) :
    DB × ScoringConfig :=
  let a := get_active db
  let db := a.1
  let current_config := a.2
  let new_weights :=
    match weights with
    | some w => dictUpdate current_config.weights w
    | none => current_config.weights
  let new_thresholds :=
    match thresholds with
    | some t => dictUpdate current_config.thresholds t
    | none => current_config.thresholds
  let new_config : ScoringConfig :=
    { weights := new_weights, thresholds := new_thresholds,
      updated_by := some user }
  ({ db with scoring_configs := new_config :: db.scoring_configs }, new_config)

/-- `EMA_ALPHA = 0.1`. -/
def EMA_ALPHA : ℚ := 1/10

/-- `POSITIVE_OUTCOMES`. -/
def POSITIVE_OUTCOMES : List String := ["booked_demo", "closed_won"]

/-- `NEGATIVE_OUTCOMES`. -/
def NEGATIVE_OUTCOMES : List String := ["no_response", "closed_lost", "disqualified"]

/-- `ScoringConfigService.update_weights_from_feedback`. -/
def update_weights_from_feedback (db : DB) (outcome : String)
    (lead_score : Int) : DB × ScoringConfig :=
  let a := get_active db
  let db := a.1
  let current_config := a.2
  let weights := current_config.weights
  let thresholds := current_config.thresholds
  let is_positive := POSITIVE_OUTCOMES.contains outcome
  let is_negative := NEGATIVE_OUTCOMES.contains outcome
  if !is_positive && !is_negative then
    (db, current_config)
  else
    let hot_threshold := (dictGet thresholds "hot").getD 70
    let warm_threshold := (dictGet thresholds "warm").getD 40
    let score_was_low := decide ((lead_score : ℚ) < warm_threshold)
    let score_was_high := decide ((lead_score : ℚ) ≥ hot_threshold)
    let adjusted : Option (List (String × ℚ)) :=
      if is_positive && score_was_low then
        some (weights.map (fun kv => (kv.1, kv.2 + EMA_ALPHA * (kv.2 * (5/100)))))
      else if is_negative && score_was_high then
        some (weights.map (fun kv =>
          (kv.1, max (kv.2 - EMA_ALPHA * (kv.2 * (5/100))) (1/100))))
      else none
    match adjusted with
    | some w1 =>
      let total := (w1.map (fun kv => kv.2)).sum
      let w2 := if total > 0 then w1.map (fun kv => (kv.1, kv.2 / total)) else w1
      update_config db (some w2) none "learning_system"
    | none => (db, current_config)

/-! ## `outcome_service.py` -/

/-- `TERMINAL_STAGES`. -/
def TERMINAL_STAGES : List OutcomeStage := [.CLOSED_WON, .CLOSED_LOST, .DISQUALIFIED]

/-- `STAGE_TO_OUTCOME`. -/
def STAGE_TO_OUTCOME : OutcomeStage → Option String
  | .BOOKED_DEMO => some "booked_demo"
  | .CLOSED_WON => some "closed_won"
  | .CLOSED_LOST => some "closed_lost"
  | .DISQUALIFIED => some "disqualified"
  | .NO_RESPONSE => some "no_response"
  | _ => none

/-- `OutcomeService.transition_stage`: validate against `VALID_TRANSITIONS`,
execute through the repository, log the activity, and trigger the learning
update on terminal stages when the lead has a score. -/
def transition_stage (db : DB) (now : Int) (lead_id : Nat)
    (new_stage : OutcomeStage) (notes : Option String) (triggered_by : String) :
    Except Err (DB × LeadOutcomeStage) :=
  match db.getLead lead_id with
  | none => .error (.leadNotFound lead_id)
  | some lead =>
    match lead.current_outcome_stage with
    | none => .error .noStageYet
    | some current =>
      let valid_next := VALID_TRANSITIONS current
      if new_stage ∈ valid_next then
        match transition_to_stage db now lead_id new_stage "MANUAL"
            (some triggered_by) notes none with
        | .error e => .error e
        | .ok (db, record) =>
          let db := { db with activities := db.activities ++ [{
            lead_id := lead_id, type := "STATUS_CHANGED",
            payload := [("outcome_stage_from", JVal.s current.str),
                        ("outcome_stage_to", JVal.s new_stage.str),
                        ("triggered_by", JVal.s triggered_by)] }] }
          let db :=
            if new_stage ∈ TERMINAL_STAGES then
              match lead.score_value with
              | some score =>
                match STAGE_TO_OUTCOME new_stage with
                | some outcome_key =>
                  (update_weights_from_feedback db outcome_key score).1
                | none => db
              | none => db
            else db
          .ok (db, record)
      else
        .error (.invalidTransition current (sortedValidTransitions current))

/-- `OutcomeService.handle_email_sent`: set the first `EMAIL_SENT` stage; if
the lead already has a stage, return the last history row unchanged (or,
when the history is unexpectedly empty, fall through to a transition). -/
def handle_email_sent (db : DB) (now : Int) (lead_id : Nat) :
    Except Err (DB × LeadOutcomeStage) :=
  match db.getLead lead_id with
  | none => .error (.leadNotFound lead_id)
  | some lead =>
    match lead.current_outcome_stage with
    | some _ =>
      let history := get_stage_history db lead_id
      match history.getLast? with
      | some r => .ok (db, r)
      | none =>
        transition_to_stage db now lead_id .EMAIL_SENT "SYSTEM" (some "system")
          none none
    | none =>
      transition_to_stage db now lead_id .EMAIL_SENT "SYSTEM" (some "system")
        none none

/-! ## `reply_classification_service.py` (stateful part) and collaborators -/

/-- External collaborators of one inbound-reply handling: whether an LLM key
is configured, what the LLM call would produce (`.error` = any raised
exception), and the scheduling link the calendar provider would return. -/
structure Env where
  has_llm_key : Bool
  llm_result : Except String ReplyClassificationResult
  scheduling_link : String

/-- The classification the service ends up with: the LLM result if a key is
configured and the call succeeds, the rule engine otherwise. -/
def resolve_classification (env : Env) (reply_body : String) :
    ReplyClassificationResult :=
  if env.has_llm_key then
    match env.llm_result with
    | .ok r => r
    | .error _ => _classify_with_rules reply_body
  else _classify_with_rules reply_body

/-- Option String to JSON value. -/
def optStr : Option String → JVal
  | some s => JVal.s s
  | none => JVal.nil

/-- `ReplyClassificationService.classify_reply`: classify (LLM with rule
fallback), persist the record with the reply truncated to 2000 chars, log
the activity. -/
def classify_reply (env : Env) (db : DB) (lead_id : Nat) (reply_body : String)
    (sender_email : Option String) :
    Except Err (DB × ReplyClassificationRecord) :=
  match db.getLead lead_id with
  | none => .error (.leadNotFound lead_id)
  | some _ =>
    let result := resolve_classification env reply_body
    let record : ReplyClassificationRecord :=
      { lead_id := lead_id, reply_body := strTake reply_body 2000,
        classification := result.classification,
        confidence := result.confidence, reasoning := result.reasoning,
        extracted_dates := result.extracted_dates,
        is_auto_reply := result.is_auto_reply }
    let db := { db with
      reply_classifications := db.reply_classifications ++ [record],
      activities := db.activities ++ [{
        lead_id := lead_id, type := "REPLY_CLASSIFIED",
        payload := [("classification", JVal.s result.classification.str),
                    ("confidence", JVal.q result.confidence),
                    ("is_auto_reply", JVal.b result.is_auto_reply),
                    ("sender_email", optStr sender_email)] }] }
    .ok (db, record)

/-- Python `", ".join` and `" ".join`. -/
def joinStrs (sep : String) : List String → String
  | [] => ""
  | [x] => x
  | x :: xs => x ++ sep ++ joinStrs sep xs

/-- `NotificationService.notify_reply_classified`: persist one
`reply_classified` notification row. -/
def notify_reply_classified (db : DB) (lead_id : Nat) (classification : String)
    (reply_preview : String) (lead_name : String) : DB :=
  { db with notifications := db.notifications ++ [{
      lead_id := some lead_id,
      type := "reply_classified",
      title := "Reply classified: " ++ classification,
      body := "Lead " ++ lead_name ++ " replied. Classification: " ++
        classification ++ ". Preview: " ++ strTake reply_preview 200,
      metadata_json := [("classification", JVal.s classification)] }] }

/-- `NotificationService.notify_demo_requested`: persist one
`demo_requested` notification row. -/
def notify_demo_requested (db : DB) (lead_id : Nat)
    (scheduling_link : Option String) (extracted_dates : List String)
    (lead_name : String) : DB :=
  let title :=
    if lead_name != "" then "Demo requested by " ++ lead_name
    else "Demo requested"
  let body_parts := ["Lead " ++ lead_name ++ " wants to book a demo."]
  let body_parts :=
    if extracted_dates.isEmpty then body_parts
    else body_parts ++ ["Suggested dates: " ++ joinStrs ", " extracted_dates]
  let body_parts :=
    match scheduling_link with
    | some link =>
      if link != "" then body_parts ++ ["Scheduling link: " ++ link]
      else body_parts
    | none => body_parts
  { db with notifications := db.notifications ++ [{
      lead_id := some lead_id,
      type := "demo_requested",
      title := title,
      body := joinStrs " " body_parts,
      metadata_json := [("scheduling_link", optStr scheduling_link),
                        ("extracted_dates", JVal.strs extracted_dates),
                        ("priority", JVal.s "high")] }] }

/-- `CalendarService.get_booking_link`: the provider's link (external, an
`Env` input) plus a `CALENDLY_LINK_SENT` activity row. -/
def get_booking_link (db : DB) (lead_id : Nat) (link : String) : DB × String :=
  ({ db with activities := db.activities ++ [{
      lead_id := lead_id, type := "CALENDLY_LINK_SENT",
      payload := [("scheduling_link", JVal.s link)] }] }, link)

/-- `OutcomeService._log_stage_change`. -/
def _log_stage_change (db : DB) (lead_id : Nat) (from_stage : Option OutcomeStage)
    (to_stage : OutcomeStage) (triggered_by : String) : DB :=
  { db with activities := db.activities ++ [{
      lead_id := lead_id, type := "STATUS_CHANGED",
      payload := [("outcome_stage_from",
                    match from_stage with
                    | some s => JVal.s s.str
                    | none => JVal.nil),
                  ("outcome_stage_to", JVal.s to_stage.str),
                  ("triggered_by", JVal.s triggered_by)] }] }

/-- Return value of `handle_inbound_reply`. -/
structure InboundReplyResult where
  stage_record : Option LeadOutcomeStage
  classification : ReplyClassification
  confidence : ℚ
  reasoning : String
  extracted_dates : List String
  auto_action_taken : Option String
deriving DecidableEq

/-- `OutcomeService.handle_inbound_reply`: log the reply, classify it, then
route on the classification (the notification call that the source makes
once after each branch's `if` is written in both arms here, same effect). -/
def handle_inbound_reply (env : Env) (db : DB) (now : Int) (lead_id : Nat)
    (reply_body : String) (sender_email : Option String) :
    Except Err (DB × InboundReplyResult) :=
  match db.getLead lead_id with
  | none => .error (.leadNotFound lead_id)
  | some lead =>
    let current := lead.current_outcome_stage
    let truncated_body := strTake reply_body 500
    let lead_name := lead.first_name ++ " " ++ lead.last_name
    let db := { db with activities := db.activities ++ [{
      lead_id := lead_id, type := "EMAIL_REPLIED",
      payload := [("reply_body", JVal.s truncated_body),
                  ("sender_email", optStr sender_email)] }] }
    match classify_reply env db lead_id reply_body sender_email with
    | .error e => .error e
    | .ok (db, classification_record) =>
      let classification := classification_record.classification
      let auto_transition : Bool :=
        current == some .EMAIL_SENT || current == some .NO_RESPONSE
      let mkResult (stage_record : Option LeadOutcomeStage)
          (auto_action : Option String) : InboundReplyResult :=
        { stage_record := stage_record, classification := classification,
          confidence := classification_record.confidence,
          reasoning := classification_record.reasoning,
          extracted_dates := classification_record.extracted_dates,
          auto_action_taken := auto_action }
      match classification with
      | .OUT_OF_OFFICE =>
        let db := notify_reply_classified db lead_id classification.str
          truncated_body lead_name
        .ok (db, mkResult none
          (some "No stage transition (out-of-office detected)"))
      | .UNSUBSCRIBE =>
        if auto_transition || current == some .RESPONDED then
          match transition_to_stage db now lead_id .DISQUALIFIED "AUTOMATIC"
              (some "reply_agent")
              (some ("Unsubscribe request: " ++ strTake truncated_body 100))
              none with
          | .error e => .error e
          | .ok (db, stage_record) =>
            let db := _log_stage_change db lead_id current .DISQUALIFIED
              "reply_agent"
            let db := notify_reply_classified db lead_id classification.str
              truncated_body lead_name
            .ok (db, mkResult (some stage_record)
              (some "Auto-transitioned to Disqualified"))
        else
          let db := notify_reply_classified db lead_id classification.str
            truncated_body lead_name
          .ok (db, mkResult none none)
      | .NOT_INTERESTED =>
        if auto_transition || current == some .RESPONDED then
          match transition_to_stage db now lead_id .CLOSED_LOST "AUTOMATIC"
              (some "reply_agent")
              (some ("Not interested: " ++ strTake truncated_body 100))
              none with
          | .error e => .error e
          | .ok (db, stage_record) =>
            let db := _log_stage_change db lead_id current .CLOSED_LOST
              "reply_agent"
            let db := notify_reply_classified db lead_id classification.str
              truncated_body lead_name
            .ok (db, mkResult (some stage_record)
              (some "Auto-transitioned to Closed Lost"))
        else
          let db := notify_reply_classified db lead_id classification.str
            truncated_body lead_name
          .ok (db, mkResult none none)
      | .INTERESTED_BOOK_DEMO =>
        let step : Except Err (DB × Option LeadOutcomeStage) :=
          if auto_transition then
            match transition_to_stage db now lead_id .RESPONDED "AUTOMATIC"
                (some "reply_agent")
                (some ("Interested reply: " ++ strTake truncated_body 100))
                none with
            | .error e => .error e
            | .ok (db, r) =>
              .ok (_log_stage_change db lead_id current .RESPONDED "reply_agent",
                some r)
          else .ok (db, none)
        match step with
        | .error e => .error e
        | .ok (db, stage_record) =>
          let bk := get_booking_link db lead_id env.scheduling_link
          let db := notify_demo_requested bk.1 lead_id (some bk.2)
            classification_record.extracted_dates lead_name
          .ok (db, mkResult stage_record
            (some "Transitioned to Responded, scheduling link generated"))
      | .QUESTION =>
        if auto_transition then
          match transition_to_stage db now lead_id .RESPONDED "AUTOMATIC"
              (some "reply_agent")
              (some ("Question reply: " ++ strTake truncated_body 100))
              none with
          | .error e => .error e
          | .ok (db, stage_record) =>
            let db := _log_stage_change db lead_id current .RESPONDED
              "reply_agent"
            let db := notify_reply_classified db lead_id classification.str
              truncated_body lead_name
            .ok (db, mkResult (some stage_record)
              (some "Transitioned to Responded (question received)"))
        else
          let db := notify_reply_classified db lead_id classification.str
            truncated_body lead_name
          .ok (db, mkResult none none)
      | .UNCLEAR =>
        if auto_transition then
          match transition_to_stage db now lead_id .RESPONDED "AUTOMATIC"
              (some "reply_agent")
              (some ("Unclear reply: " ++ strTake truncated_body 100))
              none with
          | .error e => .error e
          | .ok (db, stage_record) =>
            let db := _log_stage_change db lead_id current .RESPONDED
              "reply_agent"
            let db := notify_reply_classified db lead_id classification.str
              truncated_body lead_name
            .ok (db, mkResult (some stage_record)
              (some "Transitioned to Responded (needs review)"))
        else
          let db := notify_reply_classified db lead_id classification.str
            truncated_body lead_name
          .ok (db, mkResult none none)

/-- The per-lead loop of `OutcomeService.check_no_response`: each lead is
transitioned independently; a per-lead failure is caught (logged) and the
sweep continues with the remaining leads. -/
def sweepLoop (now : Int) (days : Int) :
    List Lead → DB → DB × List LeadOutcomeStage
  | [], db => (db, [])
  | lead :: rest, db =>
    match transition_to_stage db now lead.id .NO_RESPONSE "AUTOMATIC"
        (some "system")
        (some ("Auto-transitioned after " ++ toString days ++
          " days with no response")) none with
    | .error _ => sweepLoop now days rest db
    | .ok (db', record) =>
      let db'' := { db' with activities := db'.activities ++ [{
        lead_id := lead.id, type := "STATUS_CHANGED",
        payload := [("outcome_stage_from", JVal.s OutcomeStage.EMAIL_SENT.str),
                    ("outcome_stage_to", JVal.s OutcomeStage.NO_RESPONSE.str),
                    ("triggered_by", JVal.s "system"),
                    ("reason", JVal.s ("auto_no_response_" ++ toString days ++ "d"))] }] }
      let res := sweepLoop now days rest db''
      (res.1, record :: res.2)

/-- `OutcomeService.check_no_response` (the stale sweep): select stale
`EMAIL_SENT` leads, then transition each to `NO_RESPONSE`. -/
def check_no_response (db : DB) (now : Int) (days : Int) :
    DB × List LeadOutcomeStage :=
  sweepLoop now days (get_stale_email_sent db now days) db

/-! ## The exposed operations and the open-record invariant -/

/-- One call to an exposed state-changing operation of the subsystem. -/
inductive Op where
  | init (now : Int) (lead_id : Nat)
  | trans (now : Int) (lead_id : Nat) (new_stage : OutcomeStage)
      (notes : Option String) (triggered_by : String)
  | inbound (env : Env) (now : Int) (lead_id : Nat) (reply_body : String)
      (sender_email : Option String)
  | sweep (now : Int) (days : Int)

/-- Apply one operation; a raising operation leaves the state unchanged
(every raise site precedes any session mutation). -/
def applyOp (db : DB) : Op → DB
  | .init now lead_id =>
    match handle_email_sent db now lead_id with
    | .ok (db', _) => db'
    | .error _ => db
  | .trans now lead_id new_stage notes triggered_by =>
    match transition_stage db now lead_id new_stage notes triggered_by with
    | .ok (db', _) => db'
    | .error _ => db
  | .inbound env now lead_id reply_body sender_email =>
    match handle_inbound_reply env db now lead_id reply_body sender_email with
    | .ok (db', _) => db'
    | .error _ => db
  | .sweep now days => (check_no_response db now days).1

/-- The history rows of a lead with `exited_at IS NULL`. -/
def openRecords (db : DB) (lead_id : Nat) : List LeadOutcomeStage :=
  db.outcome_stages.filter (fun r => r.lead_id == lead_id && r.exited_at.isNone)

/-- The stage-history invariant: lead ids are unique, and for every lead the
open history rows are `[]` when it has no stage and exactly one row whose
`stage` equals `current_outcome_stage` otherwise. -/
def StageInv (db : DB) : Prop :=
  (db.leads.map Lead.id).Nodup ∧
  ∀ l ∈ db.leads,
    (openRecords db l.id).map LeadOutcomeStage.stage =
      (match l.current_outcome_stage with
       | none => []
       | some s => [s])

instance (db : DB) : Decidable (StageInv db) := by
  unfold StageInv; infer_instance

/-! ## Spec-side definition for the classifier-priority refinement claim -/

/-- The priority table as the spec words it: pattern families in strict
order with their confidences. -/
def rule_priority_table : List (List RE × ReplyClassification × ℚ) :=
  [(OOO_PATTERNS, .OUT_OF_OFFICE, 85/100),
   (UNSUBSCRIBE_PATTERNS, .UNSUBSCRIBE, 9/10),
   (NOT_INTERESTED_PATTERNS, .NOT_INTERESTED, 8/10),
   (INTERESTED_PATTERNS, .INTERESTED_BOOK_DEMO, 75/100),
   (QUESTION_PATTERNS, .QUESTION, 7/10)]

/-- Stated from the spec's wording (not the code): return the first matching
family's classification with that confidence, else UNCLEAR at 0.50. -/
def classify_per_spec_priority (text : String) : ReplyClassification × ℚ :=
  match rule_priority_table.find? (fun fam => _matches_any text fam.1) with
  | some fam => (fam.2.1, fam.2.2)
  | none => (.UNCLEAR, 1/2)

/-! ## Concrete fixtures used by witnesses and counterexamples -/

/-- A lead in `BOOKED_DEMO` with score 80. -/
def leadBD : Lead :=
  { id := 1, first_name := "Jane", last_name := "Smith", score_value := some 80,
    current_outcome_stage := some .BOOKED_DEMO, outcome_stage_entered_at := some 100 }

/-- The open history row behind `leadBD`. -/
def recBD : LeadOutcomeStage :=
  { lead_id := 1, stage := .BOOKED_DEMO, previous_stage := some .RESPONDED,
    reason := "MANUAL", triggered_by := some "user", notes := none,
    metadata_json := none, entered_at := 100, exited_at := none }

/-- A session holding `leadBD`. -/
def dbBD : DB :=
  { leads := [leadBD], outcome_stages := [recBD], activities := [],
    reply_classifications := [], notifications := [], scoring_configs := [] }

/-- A lead in `RESPONDED` with score 80, its session holding one scoring
config (the defaults). -/
def leadR : Lead := { leadBD with current_outcome_stage := some .RESPONDED }

/-- The open history row behind `leadR`. -/
def recR : LeadOutcomeStage := { recBD with stage := .RESPONDED }

/-- The default config as a row. -/
def cfgDefault : ScoringConfig :=
  { weights := DEFAULT_WEIGHTS, thresholds := DEFAULT_THRESHOLDS, updated_by := none }

/-- Session holding `leadR` and one config row. -/
def dbR : DB :=
  { leads := [leadR], outcome_stages := [recR], activities := [],
    reply_classifications := [], notifications := [], scoring_configs := [cfgDefault] }

/-- A lead stuck in `EMAIL_SENT` since time 0. -/
def leadES : Lead :=
  { leadBD with current_outcome_stage := some .EMAIL_SENT,
                outcome_stage_entered_at := some 0 }

/-- The open history row behind `leadES`. -/
def recES : LeadOutcomeStage :=
  { recBD with stage := .EMAIL_SENT, previous_stage := none, entered_at := 0 }

/-- Session holding `leadES`. -/
def dbES : DB :=
  { leads := [leadES], outcome_stages := [recES], activities := [],
    reply_classifications := [], notifications := [], scoring_configs := [] }

/-- Collaborators with no LLM key configured. -/
def envRules : Env :=
  { has_llm_key := false, llm_result := .error "unused",
    scheduling_link := "https://calendly.com/mock-user/30min" }

/-- Collaborators whose LLM backend always raises. -/
def envBoom : Env :=
  { has_llm_key := true, llm_result := .error "timeout",
    scheduling_link := "https://calendly.com/mock-user/30min" }

/-- A config with an extreme positive weight map (claim C8 quantifies over
any positive weight map). -/
def cfgAB : ScoringConfig :=
  { weights := [("a", 1/100), ("b", 100)],
    thresholds := [("hot", 70), ("warm", 40)], updated_by := some "admin" }

/-- Session whose active config is `cfgAB`. -/
def dbAB : DB :=
  { leads := [], outcome_stages := [], activities := [],
    reply_classifications := [], notifications := [], scoring_configs := [cfgAB] }

/-- A config whose thresholds map is empty (both keys missing). -/
def cfgNoTh : ScoringConfig :=
  { weights := DEFAULT_WEIGHTS, thresholds := [], updated_by := some "admin" }

/-- Session whose active config is `cfgNoTh`. -/
def dbNoTh : DB := { dbAB with scoring_configs := [cfgNoTh] }

/-- The empty session. -/
def dbEmpty : DB :=
  { leads := [], outcome_stages := [], activities := [],
    reply_classifications := [], notifications := [], scoring_configs := [] }

/-! ## Claims -/

/-- C5: the rule-based classifier tests the pattern families in the fixed
order OUT_OF_OFFICE (0.85, auto-reply), UNSUBSCRIBE (0.90), NOT_INTERESTED
(0.80), INTERESTED_BOOK_DEMO (0.75), QUESTION (0.70) and returns the first
matching family's classification at that confidence, UNCLEAR at 0.50
otherwise; in particular "Please remove me from your list" classifies as
UNSUBSCRIBE, and any text matching the UNSUBSCRIBE family but not the
OUT_OF_OFFICE family classifies as UNSUBSCRIBE regardless of the later
families. -/
theorem C5_rule_priority_first_match :
    (∀ text : String,
      ((_classify_with_rules text).classification,
        (_classify_with_rules text).confidence) = classify_per_spec_priority text ∧
      (_classify_with_rules text).is_auto_reply =
        ((_classify_with_rules text).classification == .OUT_OF_OFFICE)) ∧
    _classify_with_rules "Please remove me from your list" =
      { classification := .UNSUBSCRIBE, confidence := 9/10,
        reasoning := "Reply contains unsubscribe/opt-out language",
        extracted_dates := [], is_auto_reply := false } ∧
    (∀ text : String, _matches_any text UNSUBSCRIBE_PATTERNS = true →
      _matches_any text OOO_PATTERNS = false →
      (_classify_with_rules text).classification = .UNSUBSCRIBE ∧
      (_classify_with_rules text).confidence = 9/10) := by
  refine ⟨fun text => ?_, by rfl, fun text hU hO => ?_⟩
  · by_cases h1 : _matches_any text OOO_PATTERNS = true <;>
    by_cases h2 : _matches_any text UNSUBSCRIBE_PATTERNS = true <;>
    by_cases h3 : _matches_any text NOT_INTERESTED_PATTERNS = true <;>
    by_cases h4 : _matches_any text INTERESTED_PATTERNS = true <;>
    by_cases h5 : _matches_any text QUESTION_PATTERNS = true <;>
    simp [_classify_with_rules, classify_per_spec_priority, rule_priority_table,
      List.find?, h1, h2, h3, h4, h5]
  · simp [_classify_with_rules, hU, hO]

/-- C6: for an existing lead, `classify_reply` returns a stored
classification record for every LLM outcome — an LLM exception is swallowed
and the rule engine's result is used, as it is when no key is configured. -/
theorem C6_classify_never_raises (env : Env) (db : DB) (lead_id : Nat)
    (reply_body : String) (sender_email : Option String) (lead : Lead)
    (h : db.getLead lead_id = some lead) :
    ∃ db' record,
      classify_reply env db lead_id reply_body sender_email = .ok (db', record) ∧
      record.classification = (resolve_classification env reply_body).classification ∧
      record.confidence = (resolve_classification env reply_body).confidence ∧
      record.reply_body = strTake reply_body 2000 ∧
      db'.reply_classifications = db.reply_classifications ++ [record] ∧
      (∀ e, env.llm_result = .error e →
        resolve_classification env reply_body = _classify_with_rules reply_body) ∧
      (env.has_llm_key = false →
        resolve_classification env reply_body = _classify_with_rules reply_body) := by
  unfold classify_reply
  rw [h]
  refine ⟨_, _, rfl, rfl, rfl, rfl, rfl, ?_, ?_⟩
  · intro e he
    unfold resolve_classification
    rw [he]
    cases hk : env.has_llm_key <;> simp
  · intro hk
    unfold resolve_classification
    rw [hk]
    simp

/-- Witness for C6 at a concrete lead and an LLM that always raises. -/
theorem C6_classify_never_raises_witness :
    ∃ db' record,
      classify_reply envBoom dbBD 1 "zzz" none = .ok (db', record) ∧
      record.classification = .UNCLEAR := by
  obtain ⟨db', record, h1, h2, -, -, -, h6, -⟩ :=
    C6_classify_never_raises envBoom dbBD 1 "zzz" none leadBD (by rfl)
  refine ⟨db', record, h1, ?_⟩
  rw [h2, h6 "timeout" (by rfl)]
  rfl

/-! ## Association-list and sum lemmas for the weight maps -/

theorem dictGet_cons_self (k : String) (v : ℚ) (l : List (String × ℚ)) :
    dictGet ((k, v) :: l) k = some v := by
  simp [dictGet]

theorem dictGet_cons_ne (k k' : String) (v : ℚ) (l : List (String × ℚ))
    (h : k' ≠ k) : dictGet ((k, v) :: l) k' = dictGet l k' := by
  simp [dictGet, List.find?_cons, beq_iff_eq, Ne.symm h]

theorem dictGet_isSome_of_mem (l : List (String × ℚ)) (k : String)
    (h : k ∈ l.map Prod.fst) : (dictGet l k).isSome := by
  induction l with
  | nil => simp at h
  | cons kv tl ih =>
    by_cases hk : k = kv.1
    · subst hk
      simp [dictGet]
    · rw [show kv = (kv.1, kv.2) from rfl, dictGet_cons_ne kv.1 k kv.2 tl hk]
      apply ih
      rw [List.map_cons] at h
      rcases List.mem_cons.mp h with h | h
      · exact absurd h hk
      · exact h

theorem dictUpdate_filter_nil (base upd : List (String × ℚ))
    (h : ∀ k ∈ upd.map Prod.fst, k ∈ base.map Prod.fst) :
    upd.filter (fun kv => (dictGet base kv.1).isNone) = [] := by
  rw [List.filter_eq_nil]
  intro kv hkv
  have := dictGet_isSome_of_mem base kv.1 (h kv.1 (List.mem_map_of_mem Prod.fst hkv))
  simp [Option.isNone_iff_eq_none]
  intro hn
  rw [hn] at this
  simp at this

theorem map_replace_eq (base : List (String × ℚ)) :
    ∀ upd : List (String × ℚ), base.map Prod.fst = upd.map Prod.fst →
    (base.map Prod.fst).Nodup →
    base.map (fun kv =>
      match dictGet upd kv.1 with
      | some v => (kv.1, v)
      | none => kv) = upd := by
  induction base with
  | nil =>
    intro upd hk _
    have : upd = [] := by
      have := hk.symm
      simpa using this
    subst this
    rfl
  | cons kv bs ih =>
    intro upd hk hnd
    cases upd with
    | nil => simp at hk
    | cons kv' us =>
      simp only [List.map_cons, List.cons.injEq] at hk
      obtain ⟨hk1, hk2⟩ := hk
      simp only [List.map_cons, List.nodup_cons] at hnd
      obtain ⟨hknotin, hnd2⟩ := hnd
      simp only [List.map_cons, List.cons.injEq]
      refine ⟨?_, ?_⟩
      · rw [show kv' = (kv'.1, kv'.2) from rfl, ← hk1, dictGet_cons_self]
      · have step : bs.map (fun x =>
            match dictGet ((kv'.1, kv'.2) :: us) x.1 with
            | some v => (x.1, v)
            | none => x) = bs.map (fun x =>
            match dictGet us x.1 with
            | some v => (x.1, v)
            | none => x) := by
          apply List.map_congr_left
          intro x hx
          have hne : x.1 ≠ kv'.1 := by
            rw [← hk1]
            intro hc
            exact hknotin (hc ▸ List.mem_map_of_mem Prod.fst hx)
          rw [dictGet_cons_ne kv'.1 x.1 kv'.2 us hne]
        rw [show kv' = (kv'.1, kv'.2) from rfl] at step ⊢
        rw [step]
        exact ih us hk2 hnd2

theorem dictUpdate_eq_of_same_keys (base upd : List (String × ℚ))
    (hk : base.map Prod.fst = upd.map Prod.fst)
    (hnd : (base.map Prod.fst).Nodup) : dictUpdate base upd = upd := by
  unfold dictUpdate
  rw [map_replace_eq base upd hk hnd,
    dictUpdate_filter_nil base upd (fun k hkk => by rw [hk]; exact hkk),
    List.append_nil]

theorem sum_map_div (w : List (String × ℚ)) (t : ℚ) :
    (w.map (fun kv => kv.2 / t)).sum = (w.map Prod.snd).sum / t := by
  induction w with
  | nil => simp
  | cons kv tl ih => simp [ih, div_add_div_same]

theorem sum_pos_of_pos (w : List (String × ℚ))
    (hpos : ∀ kv ∈ w, 0 < kv.2) (hne : w ≠ []) :
    0 < (w.map Prod.snd).sum := by
  cases w with
  | nil => exact absurd rfl hne
  | cons kv tl =>
    simp only [List.map_cons, List.sum_cons]
    have h1 : 0 < kv.2 := hpos kv (List.mem_cons_self kv tl)
    have h2 : 0 ≤ (tl.map Prod.snd).sum := by
      apply List.sum_nonneg
      intro x hx
      obtain ⟨y, hy, rfl⟩ := List.mem_map.mp hx
      exact le_of_lt (hpos y (List.mem_cons_of_mem kv hy))
    linarith

/-! ## `get_active` / `update_config` / feedback characterizations -/

theorem get_active_head (db : DB) :
    (get_active db).1.scoring_configs.head? = some (get_active db).2 := by
  cases h : db.scoring_configs <;> simp [get_active, h]

theorem get_active_idem (db : DB) :
    get_active (get_active db).1 = get_active db := by
  cases h : db.scoring_configs <;> simp [get_active, h]

theorem update_config_eq (db : DB) (w t : Option (List (String × ℚ)))
    (u : String) :
    update_config db w t u =
      ({ (get_active db).1 with scoring_configs :=
          { weights := match w with
              | some x => dictUpdate (get_active db).2.weights x
              | none => (get_active db).2.weights,
            thresholds := match t with
              | some x => dictUpdate (get_active db).2.thresholds x
              | none => (get_active db).2.thresholds,
            updated_by := some u } :: (get_active db).1.scoring_configs },
        { weights := match w with
            | some x => dictUpdate (get_active db).2.weights x
            | none => (get_active db).2.weights,
          thresholds := match t with
            | some x => dictUpdate (get_active db).2.thresholds x
            | none => (get_active db).2.thresholds,
          updated_by := some u }) := rfl

/-- Outcomes in `POSITIVE_OUTCOMES` are not in `NEGATIVE_OUTCOMES`. -/
theorem positive_not_negative (o : String)
    (h : POSITIVE_OUTCOMES.contains o = true) :
    NEGATIVE_OUTCOMES.contains o = false := by
  simp [POSITIVE_OUTCOMES] at h
  rcases h with h | h <;> subst h <;> rfl

/-- Outcomes in `NEGATIVE_OUTCOMES` are not in `POSITIVE_OUTCOMES`. -/
theorem negative_not_positive (o : String)
    (h : NEGATIVE_OUTCOMES.contains o = true) :
    POSITIVE_OUTCOMES.contains o = false := by
  simp [NEGATIVE_OUTCOMES] at h
  rcases h with h | h | h <;> subst h <;> rfl

/-- Irrelevant outcome: no-op. -/
theorem uwff_not_relevant (db : DB) (o : String) (s : Int)
    (hP : POSITIVE_OUTCOMES.contains o = false)
    (hN : NEGATIVE_OUTCOMES.contains o = false) :
    update_weights_from_feedback db o s = get_active db := by
  unfold update_weights_from_feedback
  rw [hP, hN]
  rfl

/-- Positive outcome but score not low: no-op. -/
theorem uwff_aligned_pos (db : DB) (o : String) (s : Int)
    (hP : POSITIVE_OUTCOMES.contains o = true)
    (h : ¬((s : ℚ) < (dictGet (get_active db).2.thresholds "warm").getD 40)) :
    update_weights_from_feedback db o s = get_active db := by
  unfold update_weights_from_feedback
  rw [hP, positive_not_negative o hP]
  simp [h]

/-- Negative outcome but score not high: no-op. -/
theorem uwff_aligned_neg (db : DB) (o : String) (s : Int)
    (hN : NEGATIVE_OUTCOMES.contains o = true)
    (h : ¬((s : ℚ) ≥ (dictGet (get_active db).2.thresholds "hot").getD 70)) :
    update_weights_from_feedback db o s = get_active db := by
  unfold update_weights_from_feedback
  rw [hN, negative_not_positive o hN]
  simp [h]

/-- Case A (false negative): every weight is increased by
`EMA_ALPHA * (w * 0.05)`, then all are divided by the total and persisted as
a new `learning_system` row. -/
theorem uwff_caseA (db : DB) (o : String) (s : Int)
    (hkeys : ((get_active db).2.weights.map Prod.fst).Nodup)
    (hpos : ∀ kv ∈ (get_active db).2.weights, 0 < kv.2)
    (hP : POSITIVE_OUTCOMES.contains o = true)
    (hlow : (s : ℚ) < (dictGet (get_active db).2.thresholds "warm").getD 40) :
    update_weights_from_feedback db o s =
      (let w1 := (get_active db).2.weights.map
        (fun kv => (kv.1, kv.2 + EMA_ALPHA * (kv.2 * (5/100))))
       let cfg : ScoringConfig :=
         { weights := w1.map (fun kv => (kv.1, kv.2 / (w1.map Prod.snd).sum)),
           thresholds := (get_active db).2.thresholds,
           updated_by := some "learning_system" }
       ({ (get_active db).1 with
          scoring_configs := cfg :: (get_active db).1.scoring_configs }, cfg)) := by
  have hd : decide ((s : ℚ) <
      (dictGet (get_active db).2.thresholds "warm").getD 40) = true :=
    decide_eq_true hlow
  simp only [update_weights_from_feedback, hP, positive_not_negative o hP, hd,
    Bool.not_true, Bool.not_false, Bool.false_and, Bool.true_and, Bool.and_self,
    Bool.false_eq_true, if_false, if_true]
  set w1 := (get_active db).2.weights.map
    (fun kv => (kv.1, kv.2 + EMA_ALPHA * (kv.2 * (5/100)))) with hw1
  have hnorm : (if (w1.map (fun kv => kv.2)).sum > 0 then
      w1.map (fun kv => (kv.1, kv.2 / (w1.map (fun kv => kv.2)).sum)) else w1) =
      w1.map (fun kv => (kv.1, kv.2 / (w1.map Prod.snd).sum)) := by
    by_cases hemp : (get_active db).2.weights = []
    · rw [hw1, hemp]
      simp
    · have hpos1 : ∀ kv ∈ w1, 0 < kv.2 := by
        intro kv hkv
        rw [hw1] at hkv
        obtain ⟨y, hy, rfl⟩ := List.mem_map.mp hkv
        have := hpos y hy
        unfold EMA_ALPHA
        nlinarith
      have hne1 : w1 ≠ [] := by
        rw [hw1]
        simpa using hemp
      have hs := sum_pos_of_pos w1 hpos1 hne1
      rw [if_pos (by simpa using hs)]
  rw [hnorm, update_config_eq, get_active_idem]
  dsimp only
  rw [dictUpdate_eq_of_same_keys _ _
    (by rw [hw1, List.map_map, List.map_map]; rfl) hkeys]

/-- Case B (false positive): every weight is decreased by
`EMA_ALPHA * (w * 0.05)` with a 0.01 floor, then all are divided by the
total and persisted as a new `learning_system` row. -/
theorem uwff_caseB (db : DB) (o : String) (s : Int)
    (hkeys : ((get_active db).2.weights.map Prod.fst).Nodup)
    (hN : NEGATIVE_OUTCOMES.contains o = true)
    (hhigh : (s : ℚ) ≥ (dictGet (get_active db).2.thresholds "hot").getD 70) :
    update_weights_from_feedback db o s =
      (let w1 := (get_active db).2.weights.map
        (fun kv => (kv.1, max (kv.2 - EMA_ALPHA * (kv.2 * (5/100))) (1/100)))
       let cfg : ScoringConfig :=
         { weights := w1.map (fun kv => (kv.1, kv.2 / (w1.map Prod.snd).sum)),
           thresholds := (get_active db).2.thresholds,
           updated_by := some "learning_system" }
       ({ (get_active db).1 with
          scoring_configs := cfg :: (get_active db).1.scoring_configs }, cfg)) := by
  have hd : decide ((s : ℚ) ≥
      (dictGet (get_active db).2.thresholds "hot").getD 70) = true :=
    decide_eq_true hhigh
  simp only [update_weights_from_feedback, hN, negative_not_positive o hN, hd,
    Bool.not_true, Bool.not_false, Bool.false_and, Bool.true_and, Bool.and_self,
    Bool.false_eq_true, if_false, if_true]
  set w1 := (get_active db).2.weights.map
    (fun kv => (kv.1, max (kv.2 - EMA_ALPHA * (kv.2 * (5/100))) (1/100))) with hw1
  have hnorm : (if (w1.map (fun kv => kv.2)).sum > 0 then
      w1.map (fun kv => (kv.1, kv.2 / (w1.map (fun kv => kv.2)).sum)) else w1) =
      w1.map (fun kv => (kv.1, kv.2 / (w1.map Prod.snd).sum)) := by
    by_cases hemp : (get_active db).2.weights = []
    · rw [hw1, hemp]
      simp
    · have hpos1 : ∀ kv ∈ w1, 0 < kv.2 := by
        intro kv hkv
        rw [hw1] at hkv
        obtain ⟨y, hy, rfl⟩ := List.mem_map.mp hkv
        have : (0 : ℚ) < 1/100 := by norm_num
        exact lt_of_lt_of_le this (le_max_right _ _)
      have hne1 : w1 ≠ [] := by
        rw [hw1]
        simpa using hemp
      have hs := sum_pos_of_pos w1 hpos1 hne1
      rw [if_pos (by simpa using hs)]
  rw [hnorm, update_config_eq, get_active_idem]
  dsimp only
  rw [dictUpdate_eq_of_same_keys _ _
    (by rw [hw1, List.map_map, List.map_map]; rfl) hkeys]

/-- Case A persists one new row (no key hypotheses needed). -/
theorem uwff_caseA_cons (db : DB) (o : String) (s : Int)
    (hP : POSITIVE_OUTCOMES.contains o = true)
    (hlow : (s : ℚ) < (dictGet (get_active db).2.thresholds "warm").getD 40) :
    ∃ cfg, (update_weights_from_feedback db o s).1.scoring_configs =
      cfg :: (get_active db).1.scoring_configs := by
  have hd : decide ((s : ℚ) <
      (dictGet (get_active db).2.thresholds "warm").getD 40) = true :=
    decide_eq_true hlow
  simp only [update_weights_from_feedback, hP, positive_not_negative o hP, hd,
    Bool.not_true, Bool.not_false, Bool.false_and, Bool.true_and, Bool.and_self,
    Bool.false_eq_true, if_false, if_true]
  rw [update_config_eq, get_active_idem]
  exact ⟨_, rfl⟩

/-- Case B persists one new row (no key hypotheses needed). -/
theorem uwff_caseB_cons (db : DB) (o : String) (s : Int)
    (hN : NEGATIVE_OUTCOMES.contains o = true)
    (hhigh : (s : ℚ) ≥ (dictGet (get_active db).2.thresholds "hot").getD 70) :
    ∃ cfg, (update_weights_from_feedback db o s).1.scoring_configs =
      cfg :: (get_active db).1.scoring_configs := by
  have hd : decide ((s : ℚ) ≥
      (dictGet (get_active db).2.thresholds "hot").getD 70) = true :=
    decide_eq_true hhigh
  simp only [update_weights_from_feedback, hN, negative_not_positive o hN, hd,
    Bool.not_true, Bool.not_false, Bool.false_and, Bool.true_and, Bool.and_self,
    Bool.false_eq_true, if_false, if_true]
  rw [update_config_eq, get_active_idem]
  exact ⟨_, rfl⟩

theorem sum_snd_map_div (w : List (String × ℚ)) (t : ℚ) :
    ((w.map (fun kv => (kv.1, kv.2 / t))).map Prod.snd).sum =
      (w.map Prod.snd).sum / t := by
  induction w with
  | nil => simp
  | cons kv tl ih =>
    simp only [List.map_cons, List.sum_cons, ih]
    exact div_add_div_same kv.2 (tl.map Prod.snd).sum t

/-- C7: `updateFromFeedback` is a no-op returning the active config when the
outcome is in neither outcome set or the score was aligned; on a false
negative every weight becomes `w + 0.1*(w*0.05)`, on a false positive
`max(0.01, w - 0.1*(w*0.05))`; in both cases the weights are divided by
their total and persisted as a brand-new row with
`updated_by = "learning_system"`. -/
theorem C7_update_from_feedback (db : DB) (outcome : String) (lead_score : Int)
    (hkeys : ((get_active db).2.weights.map Prod.fst).Nodup)
    (hpos : ∀ kv ∈ (get_active db).2.weights, 0 < kv.2) :
    (POSITIVE_OUTCOMES.contains outcome = false →
      NEGATIVE_OUTCOMES.contains outcome = false →
      update_weights_from_feedback db outcome lead_score = get_active db) ∧
    (POSITIVE_OUTCOMES.contains outcome = true →
      ¬((lead_score : ℚ) < (dictGet (get_active db).2.thresholds "warm").getD 40) →
      update_weights_from_feedback db outcome lead_score = get_active db) ∧
    (NEGATIVE_OUTCOMES.contains outcome = true →
      ¬((lead_score : ℚ) ≥ (dictGet (get_active db).2.thresholds "hot").getD 70) →
      update_weights_from_feedback db outcome lead_score = get_active db) ∧
    (POSITIVE_OUTCOMES.contains outcome = true →
      (lead_score : ℚ) < (dictGet (get_active db).2.thresholds "warm").getD 40 →
      update_weights_from_feedback db outcome lead_score =
        (let w1 := (get_active db).2.weights.map
          (fun kv => (kv.1, kv.2 + EMA_ALPHA * (kv.2 * (5/100))))
         let cfg : ScoringConfig :=
           { weights := w1.map (fun kv => (kv.1, kv.2 / (w1.map Prod.snd).sum)),
             thresholds := (get_active db).2.thresholds,
             updated_by := some "learning_system" }
         ({ (get_active db).1 with
            scoring_configs := cfg :: (get_active db).1.scoring_configs }, cfg))) ∧
    (NEGATIVE_OUTCOMES.contains outcome = true →
      (lead_score : ℚ) ≥ (dictGet (get_active db).2.thresholds "hot").getD 70 →
      update_weights_from_feedback db outcome lead_score =
        (let w1 := (get_active db).2.weights.map
          (fun kv => (kv.1, max (kv.2 - EMA_ALPHA * (kv.2 * (5/100))) (1/100)))
         let cfg : ScoringConfig :=
           { weights := w1.map (fun kv => (kv.1, kv.2 / (w1.map Prod.snd).sum)),
             thresholds := (get_active db).2.thresholds,
             updated_by := some "learning_system" }
         ({ (get_active db).1 with
            scoring_configs := cfg :: (get_active db).1.scoring_configs }, cfg))) :=
  ⟨fun h1 h2 => uwff_not_relevant db outcome lead_score h1 h2,
   fun h1 h2 => uwff_aligned_pos db outcome lead_score h1 h2,
   fun h1 h2 => uwff_aligned_neg db outcome lead_score h1 h2,
   fun h1 h2 => uwff_caseA db outcome lead_score hkeys hpos h1 h2,
   fun h1 h2 => uwff_caseB db outcome lead_score hkeys h1 h2⟩

/-- Witness for C7: a false-positive adjustment on the default config
persists a `learning_system` row. -/
theorem C7_update_from_feedback_witness :
    (update_weights_from_feedback dbR "closed_lost" 80).2.updated_by =
      some "learning_system" := by
  have h := (C7_update_from_feedback dbR "closed_lost" 80 (by decide)
    (by intro kv hkv; fin_cases hkv <;> norm_num)).2.2.2.2
  rw [h (by rfl) (by norm_num [get_active, dbR, cfgDefault, DEFAULT_THRESHOLDS, dictGet])]

/-- C8 (amended): after an adjusting `updateFromFeedback` on an active
config with positive weights, the persisted weights sum to exactly 1 (hence
within 1e-6) and are all strictly positive, in a brand-new
`learning_system` row.  The ≥ 0.01 floor of the original claim is applied
before normalization and does not survive it (see the counterexample). -/
theorem C8_amended_normalization (db : DB) (outcome : String) (lead_score : Int)
    (hkeys : ((get_active db).2.weights.map Prod.fst).Nodup)
    (hpos : ∀ kv ∈ (get_active db).2.weights, 0 < kv.2)
    (hne : (get_active db).2.weights ≠ [])
    (hadj : (POSITIVE_OUTCOMES.contains outcome = true ∧
        (lead_score : ℚ) < (dictGet (get_active db).2.thresholds "warm").getD 40) ∨
      (NEGATIVE_OUTCOMES.contains outcome = true ∧
        (lead_score : ℚ) ≥ (dictGet (get_active db).2.thresholds "hot").getD 70)) :
    (((update_weights_from_feedback db outcome lead_score).2.weights.map
        Prod.snd).sum = 1) ∧
    (∀ kv ∈ (update_weights_from_feedback db outcome lead_score).2.weights,
      0 < kv.2) ∧
    (update_weights_from_feedback db outcome lead_score).1.scoring_configs =
      (update_weights_from_feedback db outcome lead_score).2 ::
        (get_active db).1.scoring_configs ∧
    (update_weights_from_feedback db outcome lead_score).2.updated_by =
      some "learning_system" := by
  rcases hadj with ⟨hP, hlow⟩ | ⟨hN, hhigh⟩
  · rw [uwff_caseA db outcome lead_score hkeys hpos hP hlow]
    dsimp only
    set w1 := (get_active db).2.weights.map
      (fun kv => (kv.1, kv.2 + EMA_ALPHA * (kv.2 * (5/100)))) with hw1
    have hpos1 : ∀ kv ∈ w1, 0 < kv.2 := by
      intro kv hkv
      rw [hw1] at hkv
      obtain ⟨y, hy, rfl⟩ := List.mem_map.mp hkv
      have := hpos y hy
      unfold EMA_ALPHA
      nlinarith
    have hne1 : w1 ≠ [] := by
      rw [hw1]
      simpa using hne
    have htot := sum_pos_of_pos w1 hpos1 hne1
    refine ⟨?_, ?_, rfl, rfl⟩
    · rw [sum_snd_map_div w1 ((w1.map Prod.snd).sum)]
      exact div_self (ne_of_gt htot)
    · intro kv hkv
      obtain ⟨y, hy, rfl⟩ := List.mem_map.mp hkv
      exact div_pos (hpos1 y hy) htot
  · rw [uwff_caseB db outcome lead_score hkeys hN hhigh]
    dsimp only
    set w1 := (get_active db).2.weights.map
      (fun kv => (kv.1, max (kv.2 - EMA_ALPHA * (kv.2 * (5/100))) (1/100))) with hw1
    have hpos1 : ∀ kv ∈ w1, 0 < kv.2 := by
      intro kv hkv
      rw [hw1] at hkv
      obtain ⟨y, hy, rfl⟩ := List.mem_map.mp hkv
      have h0 : (0 : ℚ) < 1/100 := by norm_num
      exact lt_of_lt_of_le h0 (le_max_right _ _)
    have hne1 : w1 ≠ [] := by
      rw [hw1]
      simpa using hne
    have htot := sum_pos_of_pos w1 hpos1 hne1
    refine ⟨?_, ?_, rfl, rfl⟩
    · rw [sum_snd_map_div w1 ((w1.map Prod.snd).sum)]
      exact div_self (ne_of_gt htot)
    · intro kv hkv
      obtain ⟨y, hy, rfl⟩ := List.mem_map.mp hkv
      exact div_pos (hpos1 y hy) htot

/-- Witness for C8 at the default config and a false-positive outcome. -/
theorem C8_amended_normalization_witness :
    ((update_weights_from_feedback dbR "closed_lost" 80).2.weights.map
      Prod.snd).sum = 1 :=
  (C8_amended_normalization dbR "closed_lost" 80 (by decide)
    (by intro kv hkv; fin_cases hkv <;> norm_num) (by decide)
    (Or.inr ⟨by rfl,
      by norm_num [get_active, dbR, cfgDefault, DEFAULT_THRESHOLDS, dictGet]⟩)).1

/-- Counterexample to C8 as stated: for the positive weight map
`{a: 0.01, b: 100}` a false-positive adjustment is performed (negative
outcome, score 80 ≥ hot 70), yet the persisted weight of `a` is
`1/9951 < 0.01` — the 0.01 floor does not survive normalization. -/
theorem C8_floor_counterexample :
    (∀ kv ∈ (get_active dbAB).2.weights, 0 < kv.2) ∧
    NEGATIVE_OUTCOMES.contains "closed_lost" = true ∧
    ((80 : Int) : ℚ) ≥ (dictGet (get_active dbAB).2.thresholds "hot").getD 70 ∧
    dictGet (update_weights_from_feedback dbAB "closed_lost" 80).2.weights "a" =
      some (1/9951) ∧
    ¬((1 : ℚ)/9951 ≥ 1/100) := by
  refine ⟨?_, by rfl, ?_, ?_, by norm_num⟩
  · intro kv hkv
    fin_cases hkv <;> norm_num
  · norm_num [get_active, dbAB, cfgAB, dictGet]
  · rw [uwff_caseB dbAB "closed_lost" 80 (by decide) (by rfl)
      (by norm_num [get_active, dbAB, cfgAB, dictGet])]
    dsimp only
    have hwab : (get_active dbAB).2.weights = [("a", 1/100), ("b", 100)] := rfl
    rw [hwab]
    have hmaxa : max ((1:ℚ)/100 - EMA_ALPHA * (1/100 * (5/100))) (1/100) = 1/100 := by
      unfold EMA_ALPHA
      rw [max_eq_right]
      norm_num
    have hmaxb : max ((100:ℚ) - EMA_ALPHA * (100 * (5/100))) (1/100) = 199/2 := by
      unfold EMA_ALPHA
      rw [max_eq_left] <;> norm_num
    simp only [List.map_cons, List.map_nil, hmaxa, hmaxb, List.sum_cons,
      List.sum_nil]
    rw [dictGet_cons_self]
    norm_num

/-- C10: when no config row exists, every config-reading operation first
creates (and `get_active` returns) the default config with the documented
weights and thresholds; independently, `updateFromFeedback` falls back to
hot=70 / warm=40 when those keys are missing from the active thresholds. -/
theorem C10_default_config_and_threshold_fallback
    (db db2 : DB) (o o2 : String) (s s2 : Int)
    (w t : Option (List (String × ℚ))) (u : String)
    (h1 : db.scoring_configs = [])
    (h2 : dictGet (get_active db2).2.thresholds "hot" = none)
    (h3 : dictGet (get_active db2).2.thresholds "warm" = none) :
    (get_active db = ({ db with scoring_configs := [cfgDefault] }, cfgDefault) ∧
     cfgDefault.weights = [("urgency", 25/100), ("budget", 20/100),
       ("company_size", 15/100), ("pain_point", 15/100), ("job_title", 10/100),
       ("industry", 10/100), ("source", 5/100)] ∧
     cfgDefault.thresholds = [("hot", 70), ("warm", 40)]) ∧
    (update_config db w t u).1.scoring_configs.getLast? = some cfgDefault ∧
    (update_weights_from_feedback db o s).1.scoring_configs.getLast? =
      some cfgDefault ∧
    (NEGATIVE_OUTCOMES.contains o2 = true →
      (update_weights_from_feedback db2 o2 s2).1.scoring_configs.length =
        (get_active db2).1.scoring_configs.length +
          (if (s2 : ℚ) ≥ 70 then 1 else 0)) ∧
    (POSITIVE_OUTCOMES.contains o2 = true →
      (update_weights_from_feedback db2 o2 s2).1.scoring_configs.length =
        (get_active db2).1.scoring_configs.length +
          (if (s2 : ℚ) < 40 then 1 else 0)) := by
  have hact : get_active db = ({ db with scoring_configs := [cfgDefault] }, cfgDefault) := by
    have hh : db.scoring_configs.head? = none := by
      rw [h1]
      rfl
    unfold get_active
    rw [hh]
    rfl
  have hcons : ∀ cfg : ScoringConfig,
      (cfg :: (get_active db).1.scoring_configs).getLast? = some cfgDefault := by
    intro cfg
    rw [hact]
    rfl
  refine ⟨⟨hact, rfl, rfl⟩, ?_, ?_, ?_, ?_⟩
  · rw [update_config_eq]
    exact hcons _
  · by_cases hPo : POSITIVE_OUTCOMES.contains o = true
    · by_cases hlow : (s : ℚ) < (dictGet (get_active db).2.thresholds "warm").getD 40
      · obtain ⟨cfg, hc⟩ := uwff_caseA_cons db o s hPo hlow
        rw [hc]
        exact hcons _
      · rw [uwff_aligned_pos db o s hPo hlow, hact]
        rfl
    · by_cases hNo : NEGATIVE_OUTCOMES.contains o = true
      · by_cases hhigh : (s : ℚ) ≥ (dictGet (get_active db).2.thresholds "hot").getD 70
        · obtain ⟨cfg, hc⟩ := uwff_caseB_cons db o s hNo hhigh
          rw [hc]
          exact hcons _
        · rw [uwff_aligned_neg db o s hNo hhigh, hact]
          rfl
      · rw [uwff_not_relevant db o s (Bool.not_eq_true _ ▸ eq_false_of_ne_true hPo)
          (eq_false_of_ne_true hNo), hact]
        rfl
  · intro hNo2
    have hgd : (dictGet (get_active db2).2.thresholds "hot").getD 70 = 70 := by
      rw [h2]
      rfl
    by_cases hs : (s2 : ℚ) ≥ 70
    · obtain ⟨cfg, hc⟩ := uwff_caseB_cons db2 o2 s2 hNo2 (by rw [hgd]; exact hs)
      rw [hc, if_pos hs]
      rfl
    · rw [uwff_aligned_neg db2 o2 s2 hNo2 (by rw [hgd]; exact hs), if_neg hs]
      rfl
  · intro hPo2
    have hgd : (dictGet (get_active db2).2.thresholds "warm").getD 40 = 40 := by
      rw [h3]
      rfl
    by_cases hs : (s2 : ℚ) < 40
    · obtain ⟨cfg, hc⟩ := uwff_caseA_cons db2 o2 s2 hPo2 (by rw [hgd]; exact hs)
      rw [hc, if_pos hs]
      rfl
    · rw [uwff_aligned_pos db2 o2 s2 hPo2 (by rw [hgd]; exact hs), if_neg hs]
      rfl

/-- Witness for C10 at the empty store and a config missing both
threshold keys. -/
theorem C10_default_config_witness :
    (update_config dbEmpty none none "admin").1.scoring_configs.getLast? =
      some cfgDefault :=
  (C10_default_config_and_threshold_fallback dbEmpty dbNoTh "booked_demo"
    "closed_lost" 30 80 none none "admin" (by rfl) (by rfl) (by rfl)).2.1

/-! ## Lead lookup and write-back lemmas -/

theorem getLead_id (db : DB) (lid : Nat) (lead : Lead)
    (h : db.getLead lid = some lead) : lead.id = lid := by
  have := List.find?_some h
  simpa [beq_iff_eq] using this

theorem getLead_mem (db : DB) (lid : Nat) (lead : Lead)
    (h : db.getLead lid = some lead) : lead ∈ db.leads :=
  List.mem_of_find?_eq_some h

theorem putLead_map_id (db : DB) (l : Lead) :
    (db.putLead l).leads.map Lead.id = db.leads.map Lead.id := by
  show (db.leads.map (fun x => if x.id == l.id then l else x)).map Lead.id =
    db.leads.map Lead.id
  rw [List.map_map]
  apply List.map_congr_left
  intro x _
  by_cases hx : (x.id == l.id) = true
  · simp only [Function.comp_apply, hx, if_true]
    exact (beq_iff_eq.mp hx).symm
  · simp only [Function.comp_apply, hx]
    rfl

theorem find?_cons_pos' {α : Type} (p : α → Bool) (a : α) (l : List α)
    (h : p a = true) : (a :: l).find? p = some a := by
  simp [List.find?_cons, h]

theorem find?_cons_neg' {α : Type} (p : α → Bool) (a : α) (l : List α)
    (h : p a = false) : (a :: l).find? p = l.find? p := by
  simp [List.find?_cons, h]

theorem find?_map_put (ls : List Lead) (lid : Nat) (lead l' : Lead)
    (hid : l'.id = lead.id) (hlid : lead.id = lid) :
    ls.find? (fun x => x.id == lid) = some lead →
    (ls.map (fun x => if x.id == l'.id then l' else x)).find?
      (fun x => x.id == lid) = some l' := by
  induction ls with
  | nil => intro h; simp at h
  | cons y ys ih =>
    intro h
    rw [List.map_cons]
    by_cases hy : (y.id == lid) = true
    · rw [find?_cons_pos' (fun x => x.id == lid) y ys hy] at h
      have hyl : y = lead := by
        injection h
      have h1 : (y.id == l'.id) = true := by
        rw [beq_iff_eq, hyl, hid]
      have h2 : (l'.id == lid) = true := by
        rw [beq_iff_eq, hid, hlid]
      rw [if_pos h1]
      exact find?_cons_pos' (fun x => x.id == lid) l' _ h2
    · rw [find?_cons_neg' (fun x => x.id == lid) y ys (Bool.eq_false_iff.mpr hy)] at h
      by_cases hyx : (y.id == l'.id) = true
      · have h2 : (l'.id == lid) = true := by
          rw [beq_iff_eq, hid, hlid]
        rw [if_pos hyx]
        exact find?_cons_pos' (fun x => x.id == lid) l' _ h2
      · rw [if_neg hyx,
          find?_cons_neg' (fun x => x.id == lid) y _ (Bool.eq_false_iff.mpr hy)]
        exact ih h

theorem getLead_putLead_self (db : DB) (lid : Nat) (lead l' : Lead)
    (h : db.getLead lid = some lead) (hid : l'.id = lead.id) :
    (db.putLead l').getLead lid = some l' :=
  find?_map_put db.leads lid lead l' hid (getLead_id db lid lead h) h

theorem find?_map_put_other (ls : List Lead) (lid : Nat) (l' : Lead)
    (hne : l'.id ≠ lid) :
    (ls.map (fun x => if x.id == l'.id then l' else x)).find?
      (fun x => x.id == lid) = ls.find? (fun x => x.id == lid) := by
  induction ls with
  | nil => rfl
  | cons y ys ih =>
    rw [List.map_cons]
    by_cases hyx : (y.id == l'.id) = true
    · have hyne : ((y.id == lid) = false) := by
        rw [beq_iff_eq.mp hyx]
        exact beq_eq_false_iff_ne.mpr hne
      have hl'ne : ((l'.id == lid) = false) := beq_eq_false_iff_ne.mpr hne
      rw [if_pos hyx, find?_cons_neg' (fun x => x.id == lid) l' _ hl'ne,
        find?_cons_neg' (fun x => x.id == lid) y ys hyne]
      exact ih
    · rw [if_neg hyx]
      by_cases hy : (y.id == lid) = true
      · rw [find?_cons_pos' (fun x => x.id == lid) y _ hy,
          find?_cons_pos' (fun x => x.id == lid) y ys hy]
      · rw [find?_cons_neg' (fun x => x.id == lid) y _ (Bool.eq_false_iff.mpr hy),
          find?_cons_neg' (fun x => x.id == lid) y ys (Bool.eq_false_iff.mpr hy)]
        exact ih

theorem getLead_putLead_other (db : DB) (lid : Nat) (l' : Lead)
    (hne : l'.id ≠ lid) :
    (db.putLead l').getLead lid = db.getLead lid :=
  find?_map_put_other db.leads lid l' hne

theorem find?_id_isSome_iff (ls : List Lead) (lid : Nat) :
    (ls.find? (fun x => x.id == lid)).isSome ↔ lid ∈ ls.map Lead.id := by
  induction ls with
  | nil => simp
  | cons y ys ih =>
    rw [List.map_cons]
    by_cases hy : (y.id == lid) = true
    · rw [find?_cons_pos' (fun x => x.id == lid) y ys hy]
      simp [beq_iff_eq.mp hy]
    · rw [find?_cons_neg' (fun x => x.id == lid) y ys (Bool.eq_false_iff.mpr hy)]
      simp only [List.mem_cons]
      constructor
      · intro h
        exact Or.inr (ih.mp h)
      · intro h
        rcases h with h | h
        · exact absurd (beq_iff_eq.mpr h.symm) (by simpa using hy)
        · exact ih.mpr h

theorem getLead_isSome_iff (db : DB) (lid : Nat) :
    (db.getLead lid).isSome ↔ lid ∈ db.leads.map Lead.id :=
  find?_id_isSome_iff db.leads lid

/-! ## Open-record bookkeeping for `transition_to_stage` -/

theorem closeFirstOpen_filter_other (lid lid2 : Nat) (p : OutcomeStage)
    (now : Int) (h : List LeadOutcomeStage) (hne : lid2 ≠ lid) :
    (closeFirstOpen lid p now h).filter
      (fun r => r.lead_id == lid2 && r.exited_at.isNone) =
    h.filter (fun r => r.lead_id == lid2 && r.exited_at.isNone) := by
  induction h with
  | nil => rfl
  | cons r rs ih =>
    unfold closeFirstOpen
    by_cases hc : (r.lead_id == lid && r.stage == p && r.exited_at.isNone) = true
    · rw [if_pos hc]
      simp only [Bool.and_eq_true, beq_iff_eq] at hc
      obtain ⟨⟨hrl, -⟩, -⟩ := hc
      have hh : (r.lead_id == lid2) = false := by
        rw [hrl]
        exact beq_eq_false_iff_ne.mpr (Ne.symm hne)
      simp [List.filter_cons, hh]
    · rw [if_neg hc]
      simp [List.filter_cons, ih]

theorem closeFirstOpen_filter_self (lid : Nat) (p : OutcomeStage) (now : Int)
    (h : List LeadOutcomeStage) (r0 : LeadOutcomeStage)
    (hf : h.filter (fun r => r.lead_id == lid && r.exited_at.isNone) = [r0])
    (hst : r0.stage = p) :
    (closeFirstOpen lid p now h).filter
      (fun r => r.lead_id == lid && r.exited_at.isNone) = [] := by
  induction h with
  | nil => simp at hf
  | cons r rs ih =>
    unfold closeFirstOpen
    by_cases hc : (r.lead_id == lid && r.stage == p && r.exited_at.isNone) = true
    · rw [if_pos hc]
      simp only [Bool.and_eq_true, beq_iff_eq] at hc
      obtain ⟨⟨hrl, -⟩, hre⟩ := hc
      have hopen : (r.lead_id == lid && r.exited_at.isNone) = true := by
        simp [hrl, hre]
      rw [List.filter_cons, if_pos hopen] at hf
      have htl : rs.filter (fun r => r.lead_id == lid && r.exited_at.isNone) = [] := by
        injection hf
      simp [List.filter_cons, htl]
    · rw [if_neg hc]
      rw [List.filter_cons] at hf
      by_cases hp : (r.lead_id == lid && r.exited_at.isNone) = true
      · rw [if_pos hp] at hf
        have hr0 : r = r0 := by
          injection hf
        exfalso
        apply hc
        simp only [Bool.and_eq_true, beq_iff_eq] at hp ⊢
        exact ⟨⟨hp.1, hr0 ▸ hst ▸ rfl⟩, hp.2⟩
      · rw [if_neg hp] at hf
        rw [List.filter_cons, if_neg hp]
        exact ih hf

theorem map_eq_singleton {α β : Type} (l : List α) (f : α → β) (b : β)
    (h : l.map f = [b]) : ∃ a, l = [a] ∧ f a = b := by
  cases l with
  | nil => simp at h
  | cons a as =>
    rw [List.map_cons] at h
    have h1 : f a = b := by
      injection h
    have h2 : as.map f = [] := by
      injection h
    have : as = [] := List.map_eq_nil.mp h2
    exact ⟨a, by rw [this], h1⟩

/-! ## Shape and frame lemmas for `transition_to_stage` -/

/-- On a found lead, `transition_to_stage` succeeds, with the fully explicit
result. -/
theorem tts_ok (db : DB) (now : Int) (lid : Nat) (ns : OutcomeStage)
    (reason : String) (tb notes : Option String)
    (md : Option (List (String × String))) (lead : Lead)
    (h : db.getLead lid = some lead) :
    transition_to_stage db now lid ns reason tb notes md = .ok
      ({ db.putLead { lead with
           current_outcome_stage := some ns,
           outcome_stage_entered_at := some now } with
          outcome_stages :=
            (match lead.current_outcome_stage with
             | none => db.outcome_stages
             | some p => closeFirstOpen lid p now db.outcome_stages) ++
            [{ lead_id := lid, stage := ns,
               previous_stage := lead.current_outcome_stage, reason := reason,
               triggered_by := tb, notes := notes, metadata_json := md,
               entered_at := now, exited_at := none }] },
       { lead_id := lid, stage := ns,
         previous_stage := lead.current_outcome_stage, reason := reason,
         triggered_by := tb, notes := notes, metadata_json := md,
         entered_at := now, exited_at := none }) := by
  unfold transition_to_stage
  rw [h]

/-- `transition_to_stage` fails only on a missing lead. -/
theorem tts_err (db : DB) (now : Int) (lid : Nat) (ns : OutcomeStage)
    (reason : String) (tb notes : Option String)
    (md : Option (List (String × String)))
    (h : db.getLead lid = none) :
    transition_to_stage db now lid ns reason tb notes md =
      .error (.leadNotFound lid) := by
  unfold transition_to_stage
  rw [h]

/-- The invariant is preserved by a successful repository transition. -/
theorem stageInv_tts (db : DB) (now : Int) (lid : Nat) (ns : OutcomeStage)
    (reason : String) (tb notes : Option String)
    (md : Option (List (String × String))) (db' : DB) (rec : LeadOutcomeStage)
    (hinv : StageInv db)
    (h : transition_to_stage db now lid ns reason tb notes md = .ok (db', rec)) :
    StageInv db' := by
  cases hl : db.getLead lid with
  | none =>
    rw [tts_err db now lid ns reason tb notes md hl] at h
    exact absurd h (by simp)
  | some lead =>
    rw [tts_ok db now lid ns reason tb notes md lead hl] at h
    have hdb : db' = { db.putLead { lead with
        current_outcome_stage := some ns,
        outcome_stage_entered_at := some now } with
        outcome_stages :=
          (match lead.current_outcome_stage with
           | none => db.outcome_stages
           | some p => closeFirstOpen lid p now db.outcome_stages) ++
          [{ lead_id := lid, stage := ns,
             previous_stage := lead.current_outcome_stage, reason := reason,
             triggered_by := tb, notes := notes, metadata_json := md,
             entered_at := now, exited_at := none }] } := by
      have := congrArg (fun x => match x with
        | Except.ok (p : DB × LeadOutcomeStage) => p.1
        | Except.error _ => db) h
      simpa using this.symm
    subst hdb
    have hlid : lead.id = lid := getLead_id db lid lead hl
    constructor
    · show ((db.putLead _).leads.map Lead.id).Nodup
      rw [putLead_map_id]
      exact hinv.1
    · intro l hmem
      have hmem' : l ∈ (db.putLead { lead with
        current_outcome_stage := some ns,
        outcome_stage_entered_at := some now }).leads := hmem
      obtain ⟨x, hx, hfx⟩ := List.mem_map.mp hmem'
      by_cases hxid : (x.id == lead.id) = true
      · -- l is the updated lead
        have hleq : l = { lead with
            current_outcome_stage := some ns,
            outcome_stage_entered_at := some now } := by
          rw [← hfx]
          simp [hxid]
        subst hleq
        show (openRecords _ lead.id).map LeadOutcomeStage.stage = [ns]
        unfold openRecords
        show ((
          (match lead.current_outcome_stage with
           | none => db.outcome_stages
           | some p => closeFirstOpen lid p now db.outcome_stages) ++
          [{ lead_id := lid, stage := ns,
             previous_stage := lead.current_outcome_stage, reason := reason,
             triggered_by := tb, notes := notes, metadata_json := md,
             entered_at := now, exited_at := none }]).filter
           (fun r => r.lead_id == lead.id && r.exited_at.isNone)).map
           LeadOutcomeStage.stage = [ns]
        rw [List.filter_append]
        have hnew : ([({
            lead_id := lid, stage := ns,
            previous_stage := lead.current_outcome_stage, reason := reason,
            triggered_by := tb, notes := notes, metadata_json := md,
            entered_at := now, exited_at := none } : LeadOutcomeStage)].filter
            (fun r => r.lead_id == lead.id && r.exited_at.isNone)) =
            [{
              lead_id := lid, stage := ns,
              previous_stage := lead.current_outcome_stage, reason := reason,
              triggered_by := tb, notes := notes, metadata_json := md,
              entered_at := now, exited_at := none }] := by
          simp [hlid]
        rw [hnew]
        have hold := hinv.2 lead (getLead_mem db lid lead hl)
        cases hprev : lead.current_outcome_stage with
        | none =>
          rw [hprev] at hold
          have : openRecords db lead.id = [] := List.map_eq_nil.mp hold
          unfold openRecords at this
          rw [this]
          rfl
        | some p =>
          rw [hprev] at hold
          obtain ⟨r0, hr0, hr0s⟩ :=
            map_eq_singleton _ LeadOutcomeStage.stage p hold
          have hclosed := closeFirstOpen_filter_self lid p now
            db.outcome_stages r0 (by rw [← hlid]; exact hr0) hr0s
          rw [hlid, hclosed]
          rfl
      · -- l is an untouched lead
        have hleq : l = x := by
          rw [← hfx]
          simp [hxid]
        subst hleq
        have hxne : l.id ≠ lid := by
          rw [← hlid]
          intro hc
          exact absurd (beq_iff_eq.mpr hc) (by simpa using hxid)
        show (openRecords _ l.id).map LeadOutcomeStage.stage = _
        unfold openRecords
        show ((
          (match lead.current_outcome_stage with
           | none => db.outcome_stages
           | some p => closeFirstOpen lid p now db.outcome_stages) ++
          [{ lead_id := lid, stage := ns,
             previous_stage := lead.current_outcome_stage, reason := reason,
             triggered_by := tb, notes := notes, metadata_json := md,
             entered_at := now, exited_at := none }]).filter
           (fun r => r.lead_id == l.id && r.exited_at.isNone)).map
           LeadOutcomeStage.stage = _
        rw [List.filter_append]
        have hnew : ([({
            lead_id := lid, stage := ns,
            previous_stage := lead.current_outcome_stage, reason := reason,
            triggered_by := tb, notes := notes, metadata_json := md,
            entered_at := now, exited_at := none } : LeadOutcomeStage)].filter
            (fun r => r.lead_id == l.id && r.exited_at.isNone)) = [] := by
          simp [beq_eq_false_iff_ne.mpr (Ne.symm hxne)]
        rw [hnew, List.append_nil]
        have hold := hinv.2 l hx
        unfold openRecords at hold
        cases hprev : lead.current_outcome_stage with
        | none => exact hold
        | some p =>
          rw [closeFirstOpen_filter_other lid l.id p now db.outcome_stages hxne]
          exact hold

/-! ## Frame lemmas (which state components each operation can touch) -/

theorem ok_eq_ok {ε α : Type} {a b : α} (h : (Except.ok a : Except ε α) = .ok b) :
    a = b := by
  injection h

/-- The invariant only reads `leads` and `outcome_stages`. -/
theorem stageInv_congr (db db' : DB) (hl : db'.leads = db.leads)
    (ho : db'.outcome_stages = db.outcome_stages) (h : StageInv db) :
    StageInv db' := by
  constructor
  · rw [hl]
    exact h.1
  · intro l hm
    rw [hl] at hm
    have hx := h.2 l hm
    unfold openRecords at hx ⊢
    rw [ho]
    exact hx

theorem get_active_frame (db : DB) : (get_active db).1.leads = db.leads ∧
    (get_active db).1.outcome_stages = db.outcome_stages := by
  cases h : db.scoring_configs <;> simp [get_active, h]

theorem uwff_db_shape (db : DB) (o : String) (s : Int) :
    (update_weights_from_feedback db o s).1 = (get_active db).1 ∨
    ∃ w, (update_weights_from_feedback db o s).1 =
      (update_config (get_active db).1 (some w) none "learning_system").1 := by
  simp only [update_weights_from_feedback]
  split
  · exact Or.inl rfl
  · split
    · exact Or.inr ⟨_, rfl⟩
    · exact Or.inl rfl

theorem uwff_frame (db : DB) (o : String) (s : Int) :
    (update_weights_from_feedback db o s).1.leads = db.leads ∧
    (update_weights_from_feedback db o s).1.outcome_stages = db.outcome_stages := by
  rcases uwff_db_shape db o s with h | ⟨w, h⟩ <;> rw [h]
  · exact get_active_frame db
  · rw [update_config_eq, get_active_idem]
    exact get_active_frame db

theorem tts_frames (db : DB) (now : Int) (lid : Nat) (ns : OutcomeStage)
    (reason : String) (tb notes : Option String)
    (md : Option (List (String × String))) (db' : DB) (rec : LeadOutcomeStage)
    (h : transition_to_stage db now lid ns reason tb notes md = .ok (db', rec)) :
    db'.leads.map Lead.id = db.leads.map Lead.id ∧
    db'.scoring_configs = db.scoring_configs ∧
    db'.reply_classifications = db.reply_classifications ∧
    db'.notifications = db.notifications ∧
    rec.lead_id = lid ∧ rec.stage = ns ∧ rec.reason = reason ∧
    rec.triggered_by = tb ∧ rec.entered_at = now ∧ rec.exited_at = none := by
  cases hl : db.getLead lid with
  | none =>
    rw [tts_err db now lid ns reason tb notes md hl] at h
    exact absurd h (by simp)
  | some lead =>
    rw [tts_ok db now lid ns reason tb notes md lead hl] at h
    have hab := ok_eq_ok h
    have hdb : db' = _ := (congrArg Prod.fst hab).symm
    have hrec : rec = _ := (congrArg Prod.snd hab).symm
    rw [hdb, hrec]
    exact ⟨putLead_map_id db _, rfl, rfl, rfl, rfl, rfl, rfl, rfl, rfl, rfl⟩

theorem tts_lead_after (db : DB) (now : Int) (lid : Nat) (ns : OutcomeStage)
    (reason : String) (tb notes : Option String)
    (md : Option (List (String × String))) (db' : DB) (rec : LeadOutcomeStage)
    (lead : Lead) (hl : db.getLead lid = some lead)
    (h : transition_to_stage db now lid ns reason tb notes md = .ok (db', rec)) :
    db'.getLead lid = some { lead with
      current_outcome_stage := some ns,
      outcome_stage_entered_at := some now } := by
  rw [tts_ok db now lid ns reason tb notes md lead hl] at h
  have hdb : db' = _ := (congrArg Prod.fst (ok_eq_ok h)).symm
  rw [hdb]
  exact getLead_putLead_self db lid lead _ hl rfl

theorem tts_getLead_other (db : DB) (now : Int) (lid lid2 : Nat)
    (ns : OutcomeStage) (reason : String) (tb notes : Option String)
    (md : Option (List (String × String))) (db' : DB) (rec : LeadOutcomeStage)
    (hne : lid2 ≠ lid)
    (h : transition_to_stage db now lid ns reason tb notes md = .ok (db', rec)) :
    db'.getLead lid2 = db.getLead lid2 := by
  cases hl : db.getLead lid with
  | none =>
    rw [tts_err db now lid ns reason tb notes md hl] at h
    exact absurd h (by simp)
  | some lead =>
    rw [tts_ok db now lid ns reason tb notes md lead hl] at h
    have hdb : db' = _ := (congrArg Prod.fst (ok_eq_ok h)).symm
    rw [hdb]
    refine getLead_putLead_other db lid2 _ ?_
    have hid : ({ lead with
      current_outcome_stage := some ns,
      outcome_stage_entered_at := some now } : Lead).id = lead.id := rfl
    rw [hid, getLead_id db lid lead hl]
    exact Ne.symm hne

/-! ## Invariant preservation for the service operations -/

theorem stageInv_transition_stage (db : DB) (now : Int) (lid : Nat)
    (ns : OutcomeStage) (notes : Option String) (tb : String)
    (db' : DB) (rec : LeadOutcomeStage) (hinv : StageInv db)
    (h : transition_stage db now lid ns notes tb = .ok (db', rec)) :
    StageInv db' := by
  unfold transition_stage at h
  cases hl : db.getLead lid with
  | none =>
    rw [hl] at h
    exact absurd h (by simp)
  | some lead =>
    rw [hl] at h
    dsimp only at h
    cases hcur : lead.current_outcome_stage with
    | none =>
      rw [hcur] at h
      exact absurd h (by simp)
    | some cur =>
      rw [hcur] at h
      dsimp only at h
      by_cases hv : ns ∈ VALID_TRANSITIONS cur
      · rw [if_pos hv] at h
        cases ht : transition_to_stage db now lid ns "MANUAL" (some tb) notes none with
        | error e =>
          rw [ht] at h
          exact absurd h (by simp)
        | ok p =>
          rw [ht] at h
          have hinv1 : StageInv p.1 :=
            stageInv_tts db now lid ns "MANUAL" (some tb) notes none p.1 p.2
              hinv (by rw [ht])
          have hdb : db' = _ := (congrArg Prod.fst (ok_eq_ok h)).symm
          rw [hdb]
          split
          · split
            · split
              · -- learning ran: only configs change
                refine stageInv_congr _ _ ?_ ?_ (stageInv_congr _ _ rfl rfl hinv1)
                · exact (uwff_frame _ _ _).1
                · exact (uwff_frame _ _ _).2
              · exact stageInv_congr _ _ rfl rfl hinv1
            · exact stageInv_congr _ _ rfl rfl hinv1
          · exact stageInv_congr _ _ rfl rfl hinv1
      · rw [if_neg hv] at h
        exact absurd h (by simp)

theorem stageInv_handle_email_sent (db : DB) (now : Int) (lid : Nat)
    (db' : DB) (rec : LeadOutcomeStage) (hinv : StageInv db)
    (h : handle_email_sent db now lid = .ok (db', rec)) : StageInv db' := by
  unfold handle_email_sent at h
  cases hl : db.getLead lid with
  | none =>
    rw [hl] at h
    exact absurd h (by simp)
  | some lead =>
    rw [hl] at h
    dsimp only at h
    cases hcur : lead.current_outcome_stage with
    | none =>
      rw [hcur] at h
      exact stageInv_tts db now lid .EMAIL_SENT "SYSTEM" (some "system") none
        none db' rec hinv h
    | some cur =>
      rw [hcur] at h
      cases hlast : (get_stage_history db lid).getLast? with
      | some r =>
        rw [hlast] at h
        have hdb : db' = db := (congrArg Prod.fst (ok_eq_ok h)).symm
        rw [hdb]
        exact hinv
      | none =>
        rw [hlast] at h
        exact stageInv_tts db now lid .EMAIL_SENT "SYSTEM" (some "system") none
          none db' rec hinv h

theorem tts_ne_error (db : DB) (now : Int) (lid : Nat) (ns : OutcomeStage)
    (reason : String) (tb notes : Option String)
    (md : Option (List (String × String))) (lead : Lead)
    (hl : db.getLead lid = some lead) (e : Err) :
    transition_to_stage db now lid ns reason tb notes md ≠ .error e := by
  rw [tts_ok db now lid ns reason tb notes md lead hl]
  simp

theorem getLead_congr (db1 db2 : DB) (h : db1.leads = db2.leads) (lid : Nat) :
    db1.getLead lid = db2.getLead lid := by
  unfold DB.getLead
  rw [h]

/-- Everything `classify_reply` does to the state: append one classification
row and one activity row. -/
theorem classify_reply_frame (env : Env) (db : DB) (lid : Nat) (body : String)
    (mail : Option String) (db2 : DB) (rec : ReplyClassificationRecord)
    (h : classify_reply env db lid body mail = .ok (db2, rec)) :
    db2.leads = db.leads ∧ db2.outcome_stages = db.outcome_stages ∧
    db2.scoring_configs = db.scoring_configs ∧
    db2.notifications = db.notifications ∧
    db2.reply_classifications = db.reply_classifications ++ [rec] ∧
    rec.classification = (resolve_classification env body).classification ∧
    rec.lead_id = lid := by
  unfold classify_reply at h
  cases hl : db.getLead lid with
  | none =>
    rw [hl] at h
    exact absurd h (by simp)
  | some lead =>
    rw [hl] at h
    dsimp only at h
    have hab := ok_eq_ok h
    have hdb : db2 = _ := (congrArg Prod.fst hab).symm
    have hrec : rec = _ := (congrArg Prod.snd hab).symm
    rw [hdb, hrec]
    exact ⟨rfl, rfl, rfl, rfl, rfl, rfl, rfl⟩

/-- `handle_inbound_reply` never touches the scoring configs (so it never
invokes the weight tuner), and it preserves the stage invariant. -/
theorem hir_preserves (env : Env) (db : DB) (now : Int) (lid : Nat)
    (body : String) (mail : Option String) (db' : DB)
    (res : InboundReplyResult)
    (h : handle_inbound_reply env db now lid body mail = .ok (db', res)) :
    db'.scoring_configs = db.scoring_configs ∧
    (StageInv db → StageInv db') := by
  unfold handle_inbound_reply at h
  cases hl : db.getLead lid with
  | none =>
    rw [hl] at h
    exact absurd h (by simp)
  | some lead =>
    rw [hl] at h
    dsimp only at h
    split at h
    · exact absurd h (by simp)
    · rename_i db2 cr hc
      have hf := classify_reply_frame env _ lid body mail db2 cr hc
      have hl2 : db2.leads = db.leads := hf.1.trans rfl
      have ho2 : db2.outcome_stages = db.outcome_stages := hf.2.1.trans rfl
      have hc2 : db2.scoring_configs = db.scoring_configs := hf.2.2.1.trans rfl
      have hgl2 : db2.getLead lid = some lead :=
        (getLead_congr db2 db hl2 lid).trans hl
      have hinv2 : StageInv db → StageInv db2 := fun hi =>
        stageInv_congr db db2 hl2 ho2 hi
      clear hf hc
      split at h
      · -- OUT_OF_OFFICE
        have hdb : db' = _ := (congrArg Prod.fst (ok_eq_ok h)).symm
        subst hdb
        exact ⟨hc2, fun hi => stageInv_congr db2 _ rfl rfl (hinv2 hi)⟩
      · -- UNSUBSCRIBE
        by_cases hb : ((lead.current_outcome_stage == some OutcomeStage.EMAIL_SENT ||
            lead.current_outcome_stage == some OutcomeStage.NO_RESPONSE) ||
            lead.current_outcome_stage == some OutcomeStage.RESPONDED) = true
        · rw [if_pos hb] at h
          cases htts : transition_to_stage db2 now lid .DISQUALIFIED "AUTOMATIC"
              (some "reply_agent")
              (some ("Unsubscribe request: " ++ strTake (strTake body 500) 100))
              none with
          | error e =>
            exact absurd htts (tts_ne_error db2 now lid _ _ _ _ _ lead hgl2 e)
          | ok p =>
            obtain ⟨dbt, rect⟩ := p
            rw [htts] at h
            dsimp only at h
            have hfr := tts_frames db2 now lid _ _ _ _ _ dbt rect htts
            have hdb : db' = _ := (congrArg Prod.fst (ok_eq_ok h)).symm
            subst hdb
            refine ⟨hfr.2.1.trans hc2, fun hi => ?_⟩
            exact stageInv_congr dbt _ rfl rfl
              (stageInv_tts db2 now lid _ _ _ _ _ dbt rect (hinv2 hi) htts)
        · rw [if_neg hb] at h
          have hdb : db' = _ := (congrArg Prod.fst (ok_eq_ok h)).symm
          subst hdb
          exact ⟨hc2, fun hi => stageInv_congr db2 _ rfl rfl (hinv2 hi)⟩
      · -- NOT_INTERESTED
        by_cases hb : ((lead.current_outcome_stage == some OutcomeStage.EMAIL_SENT ||
            lead.current_outcome_stage == some OutcomeStage.NO_RESPONSE) ||
            lead.current_outcome_stage == some OutcomeStage.RESPONDED) = true
        · rw [if_pos hb] at h
          cases htts : transition_to_stage db2 now lid .CLOSED_LOST "AUTOMATIC"
              (some "reply_agent")
              (some ("Not interested: " ++ strTake (strTake body 500) 100))
              none with
          | error e =>
            exact absurd htts (tts_ne_error db2 now lid _ _ _ _ _ lead hgl2 e)
          | ok p =>
            obtain ⟨dbt, rect⟩ := p
            rw [htts] at h
            dsimp only at h
            have hfr := tts_frames db2 now lid _ _ _ _ _ dbt rect htts
            have hdb : db' = _ := (congrArg Prod.fst (ok_eq_ok h)).symm
            subst hdb
            refine ⟨hfr.2.1.trans hc2, fun hi => ?_⟩
            exact stageInv_congr dbt _ rfl rfl
              (stageInv_tts db2 now lid _ _ _ _ _ dbt rect (hinv2 hi) htts)
        · rw [if_neg hb] at h
          have hdb : db' = _ := (congrArg Prod.fst (ok_eq_ok h)).symm
          subst hdb
          exact ⟨hc2, fun hi => stageInv_congr db2 _ rfl rfl (hinv2 hi)⟩
      · -- INTERESTED_BOOK_DEMO
        by_cases hb : (lead.current_outcome_stage == some OutcomeStage.EMAIL_SENT ||
            lead.current_outcome_stage == some OutcomeStage.NO_RESPONSE) = true
        · rw [if_pos hb] at h
          cases htts : transition_to_stage db2 now lid .RESPONDED "AUTOMATIC"
              (some "reply_agent")
              (some ("Interested reply: " ++ strTake (strTake body 500) 100))
              none with
          | error e =>
            exact absurd htts (tts_ne_error db2 now lid _ _ _ _ _ lead hgl2 e)
          | ok p =>
            obtain ⟨dbt, rect⟩ := p
            rw [htts] at h
            dsimp only at h
            have hfr := tts_frames db2 now lid _ _ _ _ _ dbt rect htts
            have hdb : db' = _ := (congrArg Prod.fst (ok_eq_ok h)).symm
            subst hdb
            refine ⟨hfr.2.1.trans hc2, fun hi => ?_⟩
            exact stageInv_congr dbt _ rfl rfl
              (stageInv_tts db2 now lid _ _ _ _ _ dbt rect (hinv2 hi) htts)
        · rw [if_neg hb] at h
          dsimp only at h
          have hdb : db' = _ := (congrArg Prod.fst (ok_eq_ok h)).symm
          subst hdb
          exact ⟨hc2, fun hi => stageInv_congr db2 _ rfl rfl (hinv2 hi)⟩
      · -- QUESTION
        by_cases hb : (lead.current_outcome_stage == some OutcomeStage.EMAIL_SENT ||
            lead.current_outcome_stage == some OutcomeStage.NO_RESPONSE) = true
        · rw [if_pos hb] at h
          cases htts : transition_to_stage db2 now lid .RESPONDED "AUTOMATIC"
              (some "reply_agent")
              (some ("Question reply: " ++ strTake (strTake body 500) 100))
              none with
          | error e =>
            exact absurd htts (tts_ne_error db2 now lid _ _ _ _ _ lead hgl2 e)
          | ok p =>
            obtain ⟨dbt, rect⟩ := p
            rw [htts] at h
            dsimp only at h
            have hfr := tts_frames db2 now lid _ _ _ _ _ dbt rect htts
            have hdb : db' = _ := (congrArg Prod.fst (ok_eq_ok h)).symm
            subst hdb
            refine ⟨hfr.2.1.trans hc2, fun hi => ?_⟩
            exact stageInv_congr dbt _ rfl rfl
              (stageInv_tts db2 now lid _ _ _ _ _ dbt rect (hinv2 hi) htts)
        · rw [if_neg hb] at h
          have hdb : db' = _ := (congrArg Prod.fst (ok_eq_ok h)).symm
          subst hdb
          exact ⟨hc2, fun hi => stageInv_congr db2 _ rfl rfl (hinv2 hi)⟩
      · -- UNCLEAR
        by_cases hb : (lead.current_outcome_stage == some OutcomeStage.EMAIL_SENT ||
            lead.current_outcome_stage == some OutcomeStage.NO_RESPONSE) = true
        · rw [if_pos hb] at h
          cases htts : transition_to_stage db2 now lid .RESPONDED "AUTOMATIC"
              (some "reply_agent")
              (some ("Unclear reply: " ++ strTake (strTake body 500) 100))
              none with
          | error e =>
            exact absurd htts (tts_ne_error db2 now lid _ _ _ _ _ lead hgl2 e)
          | ok p =>
            obtain ⟨dbt, rect⟩ := p
            rw [htts] at h
            dsimp only at h
            have hfr := tts_frames db2 now lid _ _ _ _ _ dbt rect htts
            have hdb : db' = _ := (congrArg Prod.fst (ok_eq_ok h)).symm
            subst hdb
            refine ⟨hfr.2.1.trans hc2, fun hi => ?_⟩
            exact stageInv_congr dbt _ rfl rfl
              (stageInv_tts db2 now lid _ _ _ _ _ dbt rect (hinv2 hi) htts)
        · rw [if_neg hb] at h
          have hdb : db' = _ := (congrArg Prod.fst (ok_eq_ok h)).symm
          subst hdb
          exact ⟨hc2, fun hi => stageInv_congr db2 _ rfl rfl (hinv2 hi)⟩

/-- The per-lead sweep loop preserves the stage invariant. -/
theorem stageInv_sweepLoop (now days : Int) (ls : List Lead) :
    ∀ db : DB, StageInv db → StageInv (sweepLoop now days ls db).1 := by
  induction ls with
  | nil => exact fun db hinv => hinv
  | cons lead rest ih =>
    intro db hinv
    unfold sweepLoop
    cases ht : transition_to_stage db now lead.id .NO_RESPONSE "AUTOMATIC"
        (some "system")
        (some ("Auto-transitioned after " ++ toString days ++
          " days with no response")) none with
    | error e =>
      exact ih db hinv
    | ok p =>
      obtain ⟨db1, record⟩ := p
      dsimp only
      exact ih _ (stageInv_congr db1 _ rfl rfl
        (stageInv_tts db now lead.id _ _ _ _ _ db1 record hinv ht))

/-- The stale sweep preserves the stage invariant. -/
theorem stageInv_check_no_response (db : DB) (now days : Int)
    (hinv : StageInv db) : StageInv (check_no_response db now days).1 :=
  stageInv_sweepLoop now days (get_stale_email_sent db now days) db hinv

/-- Every exposed operation preserves the stage invariant. -/
theorem stageInv_applyOp (db : DB) (op : Op) (hinv : StageInv db) :
    StageInv (applyOp db op) := by
  cases op with
  | init now lid =>
    unfold applyOp
    dsimp only
    cases h : handle_email_sent db now lid with
    | error e => exact hinv
    | ok p =>
      obtain ⟨db1, r⟩ := p
      exact stageInv_handle_email_sent db now lid db1 r hinv h
  | trans now lid ns notes tb =>
    unfold applyOp
    dsimp only
    cases h : transition_stage db now lid ns notes tb with
    | error e => exact hinv
    | ok p =>
      obtain ⟨db1, r⟩ := p
      exact stageInv_transition_stage db now lid ns notes tb db1 r hinv h
  | inbound env now lid body mail =>
    unfold applyOp
    dsimp only
    cases h : handle_inbound_reply env db now lid body mail with
    | error e => exact hinv
    | ok p =>
      obtain ⟨db1, r⟩ := p
      exact (hir_preserves env db now lid body mail db1 r h).2 hinv
  | sweep now days =>
    unfold applyOp
    dsimp only
    exact stageInv_check_no_response db now days hinv

/-- C1: for an existing lead with a non-null current stage, the manual
transition succeeds iff the new stage is in `VALID_TRANSITIONS[current]`;
otherwise it fails with `InvalidTransition` carrying the current stage and
the sorted allowed set (the sorted list is a permutation of the allowed
set's names and is sorted), and the operation leaves the state exactly
unchanged. -/
theorem C1_valid_transition_iff (db : DB) (now : Int) (lid : Nat)
    (ns : OutcomeStage) (notes : Option String) (tb : String) (lead : Lead)
    (cur : OutcomeStage) (h : db.getLead lid = some lead)
    (hcur : lead.current_outcome_stage = some cur) :
    ((∃ out, transition_stage db now lid ns notes tb = .ok out) ↔
      ns ∈ VALID_TRANSITIONS cur) ∧
    (ns ∉ VALID_TRANSITIONS cur →
      transition_stage db now lid ns notes tb =
        .error (.invalidTransition cur (sortedValidTransitions cur)) ∧
      applyOp db (.trans now lid ns notes tb) = db) ∧
    (sortedValidTransitions cur).Perm
      ((VALID_TRANSITIONS cur).map OutcomeStage.str) ∧
    List.Pairwise (fun a b => leChars a.data b.data = true)
      (sortedValidTransitions cur) := by
  have herr : ns ∉ VALID_TRANSITIONS cur →
      transition_stage db now lid ns notes tb =
        .error (.invalidTransition cur (sortedValidTransitions cur)) := by
    intro hns
    unfold transition_stage
    rw [h]
    dsimp only
    rw [hcur]
    dsimp only
    rw [if_neg hns]
  refine ⟨⟨?_, ?_⟩, ?_, ?_, ?_⟩
  · rintro ⟨out, hout⟩
    by_contra hns
    rw [herr hns] at hout
    exact absurd hout (by simp)
  · intro hns
    unfold transition_stage
    rw [h]
    dsimp only
    rw [hcur]
    dsimp only
    rw [if_pos hns]
    cases ht : transition_to_stage db now lid ns "MANUAL" (some tb) notes none with
    | error e => exact absurd ht (tts_ne_error db now lid ns _ _ _ _ lead h e)
    | ok p =>
      obtain ⟨db2, r⟩ := p
      dsimp only
      exact ⟨_, rfl⟩
  · intro hns
    refine ⟨herr hns, ?_⟩
    unfold applyOp
    dsimp only
    rw [herr hns]
  · cases cur <;> decide
  · cases cur <;> decide

/-- C1 at a concrete state: from `BOOKED_DEMO`, `EMAIL_SENT` is not an
allowed target, so the transition raises `InvalidTransition` and the state
is unchanged. -/
theorem C1_valid_transition_iff_witness :
    dbBD.getLead 1 = some leadBD ∧
    leadBD.current_outcome_stage = some .BOOKED_DEMO ∧
    (transition_stage dbBD 200 1 .EMAIL_SENT none "user" =
      .error (.invalidTransition .BOOKED_DEMO
        (sortedValidTransitions .BOOKED_DEMO)) ∧
     applyOp dbBD (.trans 200 1 .EMAIL_SENT none "user") = dbBD) :=
  ⟨rfl, rfl,
    (C1_valid_transition_iff dbBD 200 1 .EMAIL_SENT none "user" leadBD
      .BOOKED_DEMO rfl rfl).2.1 (by decide)⟩

/-- C2: the stage-history invariant holds at every state reachable from an
invariant state by any sequence of the exposed operations: lead ids stay
unique, and every lead with a non-null `current_outcome_stage` has exactly
one history record with `exited_at = none`, whose `stage` equals the lead's
`current_outcome_stage`. -/
theorem C2_open_record_invariant (db : DB) (ops : List Op)
    (hinv : StageInv db) :
    StageInv (ops.foldl applyOp db) ∧
    ∀ l ∈ (ops.foldl applyOp db).leads, ∀ s,
      l.current_outcome_stage = some s →
      ∃ r, openRecords (ops.foldl applyOp db) l.id = [r] ∧
        r.stage = s ∧ r.exited_at = none := by
  have hfold : ∀ (os : List Op) (d : DB), StageInv d →
      StageInv (os.foldl applyOp d) := by
    intro os
    induction os with
    | nil => exact fun d hd => hd
    | cons op rest ih =>
      intro d hd
      rw [List.foldl_cons]
      exact ih (applyOp d op) (stageInv_applyOp d op hd)
  refine ⟨hfold ops db hinv, ?_⟩
  intro l hm s hs
  have h2 := (hfold ops db hinv).2 l hm
  rw [hs] at h2
  dsimp only at h2
  obtain ⟨r, hr, hrs⟩ := map_eq_singleton _ _ s h2
  refine ⟨r, hr, hrs, ?_⟩
  have hmem : r ∈ openRecords (ops.foldl applyOp db) l.id := by
    rw [hr]
    exact List.mem_singleton.mpr rfl
  have hp := List.of_mem_filter hmem
  exact Option.isNone_iff_eq_none.mp ((Bool.and_eq_true _ _).mp hp).2

/-- C2 at a concrete state and operation sequence: the fixture state
satisfies the invariant, so any fold of operations from it does too. -/
theorem C2_open_record_invariant_witness :
    StageInv dbES ∧
    StageInv ([Op.init 10 1, Op.trans 20 1 .RESPONDED none "user",
      Op.sweep 40 14].foldl applyOp dbES) :=
  ⟨by decide,
   (C2_open_record_invariant dbES
     [Op.init 10 1, Op.trans 20 1 .RESPONDED none "user",
      Op.sweep 40 14] (by decide)).1⟩

/-! ## The stale sweep (claim C9) -/

/-- Membership in the stale selection, spelled out. -/
theorem mem_get_stale_iff (db : DB) (now days : Int) (l : Lead) :
    l ∈ get_stale_email_sent db now days ↔
      l ∈ db.leads ∧ l.current_outcome_stage = some .EMAIL_SENT ∧
      ∃ t, l.outcome_stage_entered_at = some t ∧ t ≤ now - days * 86400 := by
  unfold get_stale_email_sent
  dsimp only
  rw [List.mem_filter]
  constructor
  · rintro ⟨hm, hcond⟩
    rw [Bool.and_eq_true] at hcond
    obtain ⟨h1, h2⟩ := hcond
    refine ⟨hm, beq_iff_eq.mp h1, ?_⟩
    cases ho : l.outcome_stage_entered_at with
    | none =>
      rw [ho] at h2
      exact absurd h2 (by simp)
    | some t =>
      rw [ho] at h2
      exact ⟨t, rfl, of_decide_eq_true h2⟩
  · rintro ⟨hm, hcur, t, ht, hle⟩
    refine ⟨hm, ?_⟩
    rw [hcur, ht]
    simp only [beq_self_eq_true, Bool.true_and]
    exact decide_eq_true hle

/-- Every record the sweep returns is a `NO_RESPONSE` transition with
reason `AUTOMATIC` triggered by `"system"`. -/
theorem sweepLoop_records (now days : Int) (ls : List Lead) :
    ∀ db : DB, ∀ r ∈ (sweepLoop now days ls db).2,
      r.stage = .NO_RESPONSE ∧ r.reason = "AUTOMATIC" ∧
      r.triggered_by = some "system" := by
  induction ls with
  | nil =>
    intro db r hr
    exact absurd hr (by simp [sweepLoop])
  | cons lead rest ih =>
    intro db r hr
    unfold sweepLoop at hr
    cases ht : transition_to_stage db now lead.id .NO_RESPONSE "AUTOMATIC"
        (some "system") (some ("Auto-transitioned after " ++ toString days ++
          " days with no response")) none with
    | error e =>
      rw [ht] at hr
      exact ih db r hr
    | ok p =>
      obtain ⟨db1, record⟩ := p
      rw [ht] at hr
      dsimp only at hr
      rcases List.mem_cons.mp hr with hh | hh
      · subst hh
        have hfr := tts_frames db now lead.id _ _ _ _ _ db1 r ht
        exact ⟨hfr.2.2.2.2.2.1, hfr.2.2.2.2.2.2.1, hfr.2.2.2.2.2.2.2.1⟩
      · exact ih _ r hh

/-- When every swept lead id is present, no per-lead transition fails, and
the returned records are exactly one per selected lead, in order. -/
theorem sweepLoop_ids (now days : Int) (ls : List Lead) :
    ∀ db : DB, (∀ l ∈ ls, l.id ∈ db.leads.map Lead.id) →
      (sweepLoop now days ls db).2.map LeadOutcomeStage.lead_id =
        ls.map Lead.id := by
  induction ls with
  | nil => exact fun db _ => rfl
  | cons lead rest ih =>
    intro db hmem
    unfold sweepLoop
    have hid : lead.id ∈ db.leads.map Lead.id :=
      hmem lead (List.mem_cons_self lead rest)
    have hsome : (db.getLead lead.id).isSome :=
      (getLead_isSome_iff db lead.id).mpr hid
    cases hgl : db.getLead lead.id with
    | none =>
      rw [hgl] at hsome
      exact absurd hsome (by simp)
    | some l0 =>
      rw [tts_ok db now lead.id .NO_RESPONSE "AUTOMATIC" (some "system")
        (some ("Auto-transitioned after " ++ toString days ++
          " days with no response")) none l0 hgl]
      dsimp only
      rw [List.map_cons, List.map_cons]
      congr 1
      refine ih _ ?_
      intro l hl
      have hx := hmem l (List.mem_cons_of_mem lead hl)
      show l.id ∈ (db.putLead { l0 with
        current_outcome_stage := some OutcomeStage.NO_RESPONSE,
        outcome_stage_entered_at := some now }).leads.map Lead.id
      rw [putLead_map_id]
      exact hx

/-- A failing per-lead transition is skipped: the sweep continues on the
remaining leads with the state unchanged. -/
theorem sweepLoop_skip (now days : Int) (lead : Lead) (rest : List Lead)
    (dbx : DB) (e : Err)
    (he : transition_to_stage dbx now lead.id .NO_RESPONSE "AUTOMATIC"
      (some "system") (some ("Auto-transitioned after " ++ toString days ++
        " days with no response")) none = .error e) :
    sweepLoop now days (lead :: rest) dbx = sweepLoop now days rest dbx := by
  show (match transition_to_stage dbx now lead.id .NO_RESPONSE "AUTOMATIC"
      (some "system") (some ("Auto-transitioned after " ++ toString days ++
        " days with no response")) none with
    | .error _ => sweepLoop now days rest dbx
    | .ok (db', record) =>
      let db'' := { db' with activities := db'.activities ++ [{
        lead_id := lead.id, type := "STATUS_CHANGED",
        payload := [("outcome_stage_from", JVal.s OutcomeStage.EMAIL_SENT.str),
                    ("outcome_stage_to", JVal.s OutcomeStage.NO_RESPONSE.str),
                    ("triggered_by", JVal.s "system"),
                    ("reason", JVal.s ("auto_no_response_" ++ toString days ++ "d"))] }] }
      let res := sweepLoop now days rest db''
      (res.1, record :: res.2)) = sweepLoop now days rest dbx
  rw [he]

/-- C9: the stale sweep selects exactly the leads in `EMAIL_SENT` whose
stage was entered at or before `now - days`; it transitions each to
`NO_RESPONSE` with reason `AUTOMATIC` and `triggered_by = "system"` and
returns one record per selected lead (none is dropped, since each selected
lead exists); a per-lead transition failure is caught and that lead skipped
without aborting the sweep for the remaining leads. -/
theorem C9_stale_sweep (db : DB) (now days : Int) :
    (∀ l, l ∈ get_stale_email_sent db now days ↔
      l ∈ db.leads ∧ l.current_outcome_stage = some .EMAIL_SENT ∧
      ∃ t, l.outcome_stage_entered_at = some t ∧ t ≤ now - days * 86400) ∧
    (∀ r ∈ (check_no_response db now days).2,
      r.stage = .NO_RESPONSE ∧ r.reason = "AUTOMATIC" ∧
      r.triggered_by = some "system") ∧
    ((check_no_response db now days).2.map LeadOutcomeStage.lead_id =
      (get_stale_email_sent db now days).map Lead.id) ∧
    (∀ (lead : Lead) (rest : List Lead) (dbx : DB) (e : Err),
      transition_to_stage dbx now lead.id .NO_RESPONSE "AUTOMATIC"
        (some "system") (some ("Auto-transitioned after " ++ toString days ++
          " days with no response")) none = .error e →
      sweepLoop now days (lead :: rest) dbx = sweepLoop now days rest dbx) := by
  refine ⟨fun l => mem_get_stale_iff db now days l,
    fun r hr => sweepLoop_records now days _ db r hr, ?_,
    fun lead rest dbx e he => sweepLoop_skip now days lead rest dbx e he⟩
  refine sweepLoop_ids now days _ db ?_
  intro l hl
  obtain ⟨hm, -, -⟩ := (mem_get_stale_iff db now days l).mp hl
  exact List.mem_map.mpr ⟨l, hm, rfl⟩

/-! ## Routing facts for `handle_inbound_reply` (claims C3 and C4) -/

/-- `classify_reply` raises only on a missing lead. -/
theorem classify_not_error (env : Env) (db : DB) (lid : Nat) (body : String)
    (mail : Option String) (e : Err)
    (hc : classify_reply env db lid body mail = .error e) :
    db.getLead lid = none := by
  unfold classify_reply at hc
  cases hl : db.getLead lid with
  | none => rfl
  | some lead =>
    rw [hl] at hc
    dsimp only at hc
    exact absurd hc (by simp)

theorem except_exists_ok {ε α : Type} (x : Except ε α)
    (h : ∀ e, x ≠ .error e) : ∃ p, x = .ok p := by
  cases x with
  | error e => exact absurd rfl (h e)
  | ok p => exact ⟨p, rfl⟩

/-- The eligibility test of the UNSUBSCRIBE and NOT_INTERESTED branches,
as a proposition. -/
theorem eligBool_iff (c : Option OutcomeStage) :
    (((c == some OutcomeStage.EMAIL_SENT || c == some OutcomeStage.NO_RESPONSE) ||
      c == some OutcomeStage.RESPONDED) = true) ↔
    (c = some .EMAIL_SENT ∨ c = some .NO_RESPONSE ∨ c = some .RESPONDED) := by
  simp [Bool.or_eq_true, or_assoc]

/-- The notification row appended by `notify_reply_classified`. -/
theorem notify_reply_classified_notifications (db : DB) (lid : Nat)
    (cls preview name : String) :
    ∃ n, (notify_reply_classified db lid cls preview name).notifications =
      db.notifications ++ [n] ∧ n.type = "reply_classified" :=
  ⟨_, rfl, rfl⟩

/-- On a found lead, `handle_inbound_reply` never raises. -/
theorem hir_ne_error (env : Env) (db : DB) (now : Int) (lid : Nat)
    (body : String) (mail : Option String) (lead : Lead)
    (h : db.getLead lid = some lead) (e : Err) :
    handle_inbound_reply env db now lid body mail ≠ .error e := by
  intro hne
  unfold handle_inbound_reply at hne
  rw [h] at hne
  dsimp only at hne
  split at hne
  · rename_i e1 hc
    have hnone := classify_not_error env _ lid body mail e1 hc
    exact absurd (show db.getLead lid = none from hnone) (by rw [h]; simp)
  · rename_i db2 cr hc
    have hf := classify_reply_frame env _ lid body mail db2 cr hc
    have hgl2 : db2.getLead lid = some lead :=
      (getLead_congr db2 db (hf.1.trans rfl) lid).trans h
    clear hf hc
    split at hne
    · exact absurd hne (by simp)
    · by_cases hb : ((lead.current_outcome_stage == some OutcomeStage.EMAIL_SENT ||
          lead.current_outcome_stage == some OutcomeStage.NO_RESPONSE) ||
          lead.current_outcome_stage == some OutcomeStage.RESPONDED) = true
      · rw [if_pos hb] at hne
        cases htts : transition_to_stage db2 now lid .DISQUALIFIED "AUTOMATIC"
            (some "reply_agent")
            (some ("Unsubscribe request: " ++ strTake (strTake body 500) 100))
            none with
        | error e2 =>
          exact absurd htts (tts_ne_error db2 now lid _ _ _ _ _ lead hgl2 e2)
        | ok q =>
          obtain ⟨dbt, rect⟩ := q
          rw [htts] at hne
          dsimp only at hne
          exact absurd hne (by simp)
      · rw [if_neg hb] at hne
        exact absurd hne (by simp)
    · by_cases hb : ((lead.current_outcome_stage == some OutcomeStage.EMAIL_SENT ||
          lead.current_outcome_stage == some OutcomeStage.NO_RESPONSE) ||
          lead.current_outcome_stage == some OutcomeStage.RESPONDED) = true
      · rw [if_pos hb] at hne
        cases htts : transition_to_stage db2 now lid .CLOSED_LOST "AUTOMATIC"
            (some "reply_agent")
            (some ("Not interested: " ++ strTake (strTake body 500) 100))
            none with
        | error e2 =>
          exact absurd htts (tts_ne_error db2 now lid _ _ _ _ _ lead hgl2 e2)
        | ok q =>
          obtain ⟨dbt, rect⟩ := q
          rw [htts] at hne
          dsimp only at hne
          exact absurd hne (by simp)
      · rw [if_neg hb] at hne
        exact absurd hne (by simp)
    · by_cases hb : (lead.current_outcome_stage == some OutcomeStage.EMAIL_SENT ||
          lead.current_outcome_stage == some OutcomeStage.NO_RESPONSE) = true
      · rw [if_pos hb] at hne
        cases htts : transition_to_stage db2 now lid .RESPONDED "AUTOMATIC"
            (some "reply_agent")
            (some ("Interested reply: " ++ strTake (strTake body 500) 100))
            none with
        | error e2 =>
          exact absurd htts (tts_ne_error db2 now lid _ _ _ _ _ lead hgl2 e2)
        | ok q =>
          obtain ⟨dbt, rect⟩ := q
          rw [htts] at hne
          dsimp only at hne
          exact absurd hne (by simp)
      · rw [if_neg hb] at hne
        dsimp only at hne
        exact absurd hne (by simp)
    · by_cases hb : (lead.current_outcome_stage == some OutcomeStage.EMAIL_SENT ||
          lead.current_outcome_stage == some OutcomeStage.NO_RESPONSE) = true
      · rw [if_pos hb] at hne
        cases htts : transition_to_stage db2 now lid .RESPONDED "AUTOMATIC"
            (some "reply_agent")
            (some ("Question reply: " ++ strTake (strTake body 500) 100))
            none with
        | error e2 =>
          exact absurd htts (tts_ne_error db2 now lid _ _ _ _ _ lead hgl2 e2)
        | ok q =>
          obtain ⟨dbt, rect⟩ := q
          rw [htts] at hne
          dsimp only at hne
          exact absurd hne (by simp)
      · rw [if_neg hb] at hne
        exact absurd hne (by simp)
    · by_cases hb : (lead.current_outcome_stage == some OutcomeStage.EMAIL_SENT ||
          lead.current_outcome_stage == some OutcomeStage.NO_RESPONSE) = true
      · rw [if_pos hb] at hne
        cases htts : transition_to_stage db2 now lid .RESPONDED "AUTOMATIC"
            (some "reply_agent")
            (some ("Unclear reply: " ++ strTake (strTake body 500) 100))
            none with
        | error e2 =>
          exact absurd htts (tts_ne_error db2 now lid _ _ _ _ _ lead hgl2 e2)
        | ok q =>
          obtain ⟨dbt, rect⟩ := q
          rw [htts] at hne
          dsimp only at hne
          exact absurd hne (by simp)
      · rw [if_neg hb] at hne
        exact absurd hne (by simp)

/-- C4: for an existing lead, `handle_inbound_reply` always succeeds and
returns the classifier's classification; on UNSUBSCRIBE (resp.
NOT_INTERESTED) from a stage in {EMAIL_SENT, NO_RESPONSE, RESPONDED} the
lead is transitioned to DISQUALIFIED (resp. CLOSED_LOST) with reason
AUTOMATIC triggered by "reply_agent"; when the stage precondition fails the
lead is left exactly as it was, but the classification row is still
persisted and the `reply_classified` notification is still sent. -/
theorem C4_unsub_not_interested_routing (env : Env) (db : DB) (now : Int)
    (lid : Nat) (body : String) (mail : Option String) (lead : Lead)
    (h : db.getLead lid = some lead) :
    ∃ db' res,
      handle_inbound_reply env db now lid body mail = .ok (db', res) ∧
      res.classification = (resolve_classification env body).classification ∧
      ((resolve_classification env body).classification = .UNSUBSCRIBE →
        (lead.current_outcome_stage = some .EMAIL_SENT ∨
         lead.current_outcome_stage = some .NO_RESPONSE ∨
         lead.current_outcome_stage = some .RESPONDED) →
        ∃ r, res.stage_record = some r ∧ r.stage = .DISQUALIFIED ∧
          r.reason = "AUTOMATIC" ∧ r.triggered_by = some "reply_agent" ∧
          ∃ l', db'.getLead lid = some l' ∧
            l'.current_outcome_stage = some .DISQUALIFIED) ∧
      ((resolve_classification env body).classification = .NOT_INTERESTED →
        (lead.current_outcome_stage = some .EMAIL_SENT ∨
         lead.current_outcome_stage = some .NO_RESPONSE ∨
         lead.current_outcome_stage = some .RESPONDED) →
        ∃ r, res.stage_record = some r ∧ r.stage = .CLOSED_LOST ∧
          r.reason = "AUTOMATIC" ∧ r.triggered_by = some "reply_agent" ∧
          ∃ l', db'.getLead lid = some l' ∧
            l'.current_outcome_stage = some .CLOSED_LOST) ∧
      (((resolve_classification env body).classification = .UNSUBSCRIBE ∨
        (resolve_classification env body).classification = .NOT_INTERESTED) →
        ¬(lead.current_outcome_stage = some .EMAIL_SENT ∨
          lead.current_outcome_stage = some .NO_RESPONSE ∨
          lead.current_outcome_stage = some .RESPONDED) →
        res.stage_record = none ∧
        db'.getLead lid = some lead ∧
        (∃ rc, db'.reply_classifications = db.reply_classifications ++ [rc] ∧
          rc.classification = (resolve_classification env body).classification) ∧
        (∃ n, db'.notifications = db.notifications ++ [n] ∧
          n.type = "reply_classified")) := by
  obtain ⟨p, hrun⟩ := except_exists_ok _
    (hir_ne_error env db now lid body mail lead h)
  refine ⟨p.1, p.2, hrun, ?_⟩
  have hr2 := hrun
  unfold handle_inbound_reply at hr2
  rw [h] at hr2
  dsimp only at hr2
  split at hr2
  · rename_i e1 hc
    have hnone := classify_not_error env _ lid body mail e1 hc
    exact absurd (show db.getLead lid = none from hnone) (by rw [h]; simp)
  · rename_i db2 cr hc
    have hf := classify_reply_frame env _ lid body mail db2 cr hc
    have hcls : cr.classification =
        (resolve_classification env body).classification := hf.2.2.2.2.2.1
    have hgl2 : db2.getLead lid = some lead :=
      (getLead_congr db2 db (hf.1.trans rfl) lid).trans h
    split at hr2
    all_goals rename_i hcl
    · -- OUT_OF_OFFICE
      have hp := ok_eq_ok hr2
      rw [← hp]
      dsimp only
      refine ⟨hcls, fun hU _ => ?_, fun hN _ => ?_, fun hUN _ => ?_⟩
      · rw [← hcls, hcl] at hU
        exact absurd hU (by simp)
      · rw [← hcls, hcl] at hN
        exact absurd hN (by simp)
      · rcases hUN with hU | hU <;>
          (rw [← hcls, hcl] at hU; exact absurd hU (by simp))
    · -- UNSUBSCRIBE
      by_cases hb : ((lead.current_outcome_stage == some OutcomeStage.EMAIL_SENT ||
          lead.current_outcome_stage == some OutcomeStage.NO_RESPONSE) ||
          lead.current_outcome_stage == some OutcomeStage.RESPONDED) = true
      · rw [if_pos hb] at hr2
        cases htts : transition_to_stage db2 now lid .DISQUALIFIED "AUTOMATIC"
            (some "reply_agent")
            (some ("Unsubscribe request: " ++ strTake (strTake body 500) 100))
            none with
        | error e2 =>
          exact absurd htts (tts_ne_error db2 now lid _ _ _ _ _ lead hgl2 e2)
        | ok q =>
          obtain ⟨dbt, rect⟩ := q
          rw [htts] at hr2
          dsimp only at hr2
          have hfr := tts_frames db2 now lid _ _ _ _ _ dbt rect htts
          have hla := tts_lead_after db2 now lid _ _ _ _ _ dbt rect lead
            hgl2 htts
          have hp := ok_eq_ok hr2
          rw [← hp]
          dsimp only
          refine ⟨hcls, fun hU helig => ?_, fun hN helig => ?_,
            fun hUN hnelig =>
              absurd ((eligBool_iff lead.current_outcome_stage).mp hb) hnelig⟩
          · exact ⟨rect, rfl, hfr.2.2.2.2.2.1, hfr.2.2.2.2.2.2.1,
              hfr.2.2.2.2.2.2.2.1, ⟨_, hla, rfl⟩⟩
          · rw [← hcls, hcl] at hN
            exact absurd hN (by simp)
      · rw [if_neg hb] at hr2
        have hp := ok_eq_ok hr2
        rw [← hp]
        dsimp only
        refine ⟨hcls,
          fun hU helig =>
            absurd ((eligBool_iff lead.current_outcome_stage).mpr helig) hb,
          fun hN helig =>
            absurd ((eligBool_iff lead.current_outcome_stage).mpr helig) hb,
          fun hUN hnelig => ?_⟩
        obtain ⟨n, hn, hnt⟩ := notify_reply_classified_notifications db2 lid
          cr.classification.str (strTake body 500)
          (lead.first_name ++ " " ++ lead.last_name)
        refine ⟨rfl, hgl2, ⟨cr, hf.2.2.2.2.1, hcls⟩, ⟨n, ?_, hnt⟩⟩
        rw [hn, hf.2.2.2.1]
    · -- NOT_INTERESTED
      by_cases hb : ((lead.current_outcome_stage == some OutcomeStage.EMAIL_SENT ||
          lead.current_outcome_stage == some OutcomeStage.NO_RESPONSE) ||
          lead.current_outcome_stage == some OutcomeStage.RESPONDED) = true
      · rw [if_pos hb] at hr2
        cases htts : transition_to_stage db2 now lid .CLOSED_LOST "AUTOMATIC"
            (some "reply_agent")
            (some ("Not interested: " ++ strTake (strTake body 500) 100))
            none with
        | error e2 =>
          exact absurd htts (tts_ne_error db2 now lid _ _ _ _ _ lead hgl2 e2)
        | ok q =>
          obtain ⟨dbt, rect⟩ := q
          rw [htts] at hr2
          dsimp only at hr2
          have hfr := tts_frames db2 now lid _ _ _ _ _ dbt rect htts
          have hla := tts_lead_after db2 now lid _ _ _ _ _ dbt rect lead
            hgl2 htts
          have hp := ok_eq_ok hr2
          rw [← hp]
          dsimp only
          refine ⟨hcls, fun hU helig => ?_, fun hN helig => ?_,
            fun hUN hnelig =>
              absurd ((eligBool_iff lead.current_outcome_stage).mp hb) hnelig⟩
          · rw [← hcls, hcl] at hU
            exact absurd hU (by simp)
          · exact ⟨rect, rfl, hfr.2.2.2.2.2.1, hfr.2.2.2.2.2.2.1,
              hfr.2.2.2.2.2.2.2.1, ⟨_, hla, rfl⟩⟩
      · rw [if_neg hb] at hr2
        have hp := ok_eq_ok hr2
        rw [← hp]
        dsimp only
        refine ⟨hcls,
          fun hU helig =>
            absurd ((eligBool_iff lead.current_outcome_stage).mpr helig) hb,
          fun hN helig =>
            absurd ((eligBool_iff lead.current_outcome_stage).mpr helig) hb,
          fun hUN hnelig => ?_⟩
        obtain ⟨n, hn, hnt⟩ := notify_reply_classified_notifications db2 lid
          cr.classification.str (strTake body 500)
          (lead.first_name ++ " " ++ lead.last_name)
        refine ⟨rfl, hgl2, ⟨cr, hf.2.2.2.2.1, hcls⟩, ⟨n, ?_, hnt⟩⟩
        rw [hn, hf.2.2.2.1]
    · -- INTERESTED_BOOK_DEMO
      by_cases hb : (lead.current_outcome_stage == some OutcomeStage.EMAIL_SENT ||
          lead.current_outcome_stage == some OutcomeStage.NO_RESPONSE) = true
      · rw [if_pos hb] at hr2
        cases htts : transition_to_stage db2 now lid .RESPONDED "AUTOMATIC"
            (some "reply_agent")
            (some ("Interested reply: " ++ strTake (strTake body 500) 100))
            none with
        | error e2 =>
          exact absurd htts (tts_ne_error db2 now lid _ _ _ _ _ lead hgl2 e2)
        | ok q =>
          obtain ⟨dbt, rect⟩ := q
          rw [htts] at hr2
          dsimp only at hr2
          have hp := ok_eq_ok hr2
          rw [← hp]
          dsimp only
          refine ⟨hcls, fun hU _ => ?_, fun hN _ => ?_, fun hUN _ => ?_⟩
          · rw [← hcls, hcl] at hU
            exact absurd hU (by simp)
          · rw [← hcls, hcl] at hN
            exact absurd hN (by simp)
          · rcases hUN with hU | hU <;>
              (rw [← hcls, hcl] at hU; exact absurd hU (by simp))
      · rw [if_neg hb] at hr2
        dsimp only at hr2
        have hp := ok_eq_ok hr2
        rw [← hp]
        dsimp only
        refine ⟨hcls, fun hU _ => ?_, fun hN _ => ?_, fun hUN _ => ?_⟩
        · rw [← hcls, hcl] at hU
          exact absurd hU (by simp)
        · rw [← hcls, hcl] at hN
          exact absurd hN (by simp)
        · rcases hUN with hU | hU <;>
            (rw [← hcls, hcl] at hU; exact absurd hU (by simp))
    · -- QUESTION
      by_cases hb : (lead.current_outcome_stage == some OutcomeStage.EMAIL_SENT ||
          lead.current_outcome_stage == some OutcomeStage.NO_RESPONSE) = true
      · rw [if_pos hb] at hr2
        cases htts : transition_to_stage db2 now lid .RESPONDED "AUTOMATIC"
            (some "reply_agent")
            (some ("Question reply: " ++ strTake (strTake body 500) 100))
            none with
        | error e2 =>
          exact absurd htts (tts_ne_error db2 now lid _ _ _ _ _ lead hgl2 e2)
        | ok q =>
          obtain ⟨dbt, rect⟩ := q
          rw [htts] at hr2
          dsimp only at hr2
          have hp := ok_eq_ok hr2
          rw [← hp]
          dsimp only
          refine ⟨hcls, fun hU _ => ?_, fun hN _ => ?_, fun hUN _ => ?_⟩
          · rw [← hcls, hcl] at hU
            exact absurd hU (by simp)
          · rw [← hcls, hcl] at hN
            exact absurd hN (by simp)
          · rcases hUN with hU | hU <;>
              (rw [← hcls, hcl] at hU; exact absurd hU (by simp))
      · rw [if_neg hb] at hr2
        have hp := ok_eq_ok hr2
        rw [← hp]
        dsimp only
        refine ⟨hcls, fun hU _ => ?_, fun hN _ => ?_, fun hUN _ => ?_⟩
        · rw [← hcls, hcl] at hU
          exact absurd hU (by simp)
        · rw [← hcls, hcl] at hN
          exact absurd hN (by simp)
        · rcases hUN with hU | hU <;>
            (rw [← hcls, hcl] at hU; exact absurd hU (by simp))
    · -- UNCLEAR
      by_cases hb : (lead.current_outcome_stage == some OutcomeStage.EMAIL_SENT ||
          lead.current_outcome_stage == some OutcomeStage.NO_RESPONSE) = true
      · rw [if_pos hb] at hr2
        cases htts : transition_to_stage db2 now lid .RESPONDED "AUTOMATIC"
            (some "reply_agent")
            (some ("Unclear reply: " ++ strTake (strTake body 500) 100))
            none with
        | error e2 =>
          exact absurd htts (tts_ne_error db2 now lid _ _ _ _ _ lead hgl2 e2)
        | ok q =>
          obtain ⟨dbt, rect⟩ := q
          rw [htts] at hr2
          dsimp only at hr2
          have hp := ok_eq_ok hr2
          rw [← hp]
          dsimp only
          refine ⟨hcls, fun hU _ => ?_, fun hN _ => ?_, fun hUN _ => ?_⟩
          · rw [← hcls, hcl] at hU
            exact absurd hU (by simp)
          · rw [← hcls, hcl] at hN
            exact absurd hN (by simp)
          · rcases hUN with hU | hU <;>
              (rw [← hcls, hcl] at hU; exact absurd hU (by simp))
      · rw [if_neg hb] at hr2
        have hp := ok_eq_ok hr2
        rw [← hp]
        dsimp only
        refine ⟨hcls, fun hU _ => ?_, fun hN _ => ?_, fun hUN _ => ?_⟩
        · rw [← hcls, hcl] at hU
          exact absurd hU (by simp)
        · rw [← hcls, hcl] at hN
          exact absurd hN (by simp)
        · rcases hUN with hU | hU <;>
            (rw [← hcls, hcl] at hU; exact absurd hU (by simp))

/-- C4 at a concrete state: an "unsubscribe" reply to a lead in
`EMAIL_SENT` auto-disqualifies it. -/
theorem C4_unsub_not_interested_routing_witness :
    ∃ db' res,
      handle_inbound_reply envRules dbES 50 1 "unsubscribe" none =
        .ok (db', res) ∧
      res.classification =
        (resolve_classification envRules "unsubscribe").classification ∧
      ((resolve_classification envRules "unsubscribe").classification =
          .UNSUBSCRIBE →
        (leadES.current_outcome_stage = some .EMAIL_SENT ∨
         leadES.current_outcome_stage = some .NO_RESPONSE ∨
         leadES.current_outcome_stage = some .RESPONDED) →
        ∃ r, res.stage_record = some r ∧ r.stage = .DISQUALIFIED ∧
          r.reason = "AUTOMATIC" ∧ r.triggered_by = some "reply_agent" ∧
          ∃ l', db'.getLead 1 = some l' ∧
            l'.current_outcome_stage = some .DISQUALIFIED) ∧
      ((resolve_classification envRules "unsubscribe").classification =
          .NOT_INTERESTED →
        (leadES.current_outcome_stage = some .EMAIL_SENT ∨
         leadES.current_outcome_stage = some .NO_RESPONSE ∨
         leadES.current_outcome_stage = some .RESPONDED) →
        ∃ r, res.stage_record = some r ∧ r.stage = .CLOSED_LOST ∧
          r.reason = "AUTOMATIC" ∧ r.triggered_by = some "reply_agent" ∧
          ∃ l', db'.getLead 1 = some l' ∧
            l'.current_outcome_stage = some .CLOSED_LOST) ∧
      (((resolve_classification envRules "unsubscribe").classification =
          .UNSUBSCRIBE ∨
        (resolve_classification envRules "unsubscribe").classification =
          .NOT_INTERESTED) →
        ¬(leadES.current_outcome_stage = some .EMAIL_SENT ∨
          leadES.current_outcome_stage = some .NO_RESPONSE ∨
          leadES.current_outcome_stage = some .RESPONDED) →
        res.stage_record = none ∧
        db'.getLead 1 = some leadES ∧
        (∃ rc, db'.reply_classifications = dbES.reply_classifications ++ [rc] ∧
          rc.classification =
            (resolve_classification envRules "unsubscribe").classification) ∧
        (∃ n, db'.notifications = dbES.notifications ++ [n] ∧
          n.type = "reply_classified")) :=
  C4_unsub_not_interested_routing envRules dbES 50 1 "unsubscribe" none
    leadES rfl

/-- C3 (amended): a manual transition into a terminal stage for a lead
with a score hands the post-transition state to
`update_weights_from_feedback` with the stage's outcome key and the lead's
score; the automatic routing in `handle_inbound_reply`, by contrast, never
touches the scoring configs, so the tuner is not invoked on automatic
terminal transitions. -/
theorem C3_terminal_tuner_manual_only :
    (∀ (db : DB) (now : Int) (lid : Nat) (ns : OutcomeStage)
      (notes : Option String) (tb : String) (lead : Lead) (score : Int)
      (key : String) (db' : DB) (rec : LeadOutcomeStage),
      db.getLead lid = some lead →
      lead.score_value = some score →
      STAGE_TO_OUTCOME ns = some key →
      ns ∈ TERMINAL_STAGES →
      transition_stage db now lid ns notes tb = .ok (db', rec) →
      ∃ dbt : DB, dbt.scoring_configs = db.scoring_configs ∧
        db' = (update_weights_from_feedback dbt key score).1) ∧
    (∀ (env : Env) (dbx : DB) (now : Int) (lid : Nat) (body : String)
      (mail : Option String) (db' : DB) (res : InboundReplyResult),
      handle_inbound_reply env dbx now lid body mail = .ok (db', res) →
      db'.scoring_configs = dbx.scoring_configs) := by
  constructor
  · intro db now lid ns notes tb lead score key db' rec hgl hscore hkey
      hterm htr
    unfold transition_stage at htr
    rw [hgl] at htr
    dsimp only at htr
    cases hcur : lead.current_outcome_stage with
    | none =>
      rw [hcur] at htr
      exact absurd htr (by simp)
    | some cur =>
      rw [hcur] at htr
      dsimp only at htr
      by_cases hv : ns ∈ VALID_TRANSITIONS cur
      · rw [if_pos hv] at htr
        cases ht : transition_to_stage db now lid ns "MANUAL" (some tb)
            notes none with
        | error e =>
          exact absurd ht (tts_ne_error db now lid ns _ _ _ _ lead hgl e)
        | ok p =>
          obtain ⟨db2, r⟩ := p
          rw [ht] at htr
          dsimp only at htr
          rw [if_pos hterm, hscore] at htr
          dsimp only at htr
          rw [hkey] at htr
          dsimp only at htr
          have hdb : db' = _ := (congrArg Prod.fst (ok_eq_ok htr)).symm
          refine ⟨_, ?_, hdb⟩
          exact (tts_frames db now lid ns _ _ _ _ db2 r ht).2.1
      · rw [if_neg hv] at htr
        exact absurd htr (by simp)
  · intro env dbx now lid body mail db' res hr
    exact (hir_preserves env dbx now lid body mail db' res hr).1

/-- The claim as frozen is false: here an inbound "not interested" reply
auto-transitions a `RESPONDED` lead with a score of 80 into the terminal
stage CLOSED_LOST, yet the scoring configs are left exactly as they were —
while an actual `update_weights_from_feedback` call with the corresponding
outcome and score would have persisted a new config row. -/
theorem C3_automatic_no_tuner_counterexample :
    (∃ db' res,
      handle_inbound_reply envRules dbR 100 1 "not interested" none =
        .ok (db', res) ∧
      (∃ r, res.stage_record = some r ∧ r.stage = .CLOSED_LOST) ∧
      db'.scoring_configs = dbR.scoring_configs) ∧
    leadR.score_value = some 80 ∧
    STAGE_TO_OUTCOME .CLOSED_LOST = some "closed_lost" ∧
    (update_weights_from_feedback dbR "closed_lost" 80).1.scoring_configs ≠
      dbR.scoring_configs := by
  refine ⟨⟨_, _, rfl, ⟨_, rfl, rfl⟩, rfl⟩, rfl, rfl, ?_⟩
  have hhot : (dictGet (get_active dbR).2.thresholds "hot").getD 70 =
      (70 : ℚ) := rfl
  have hge : ((80 : Int) : ℚ) ≥
      (dictGet (get_active dbR).2.thresholds "hot").getD 70 := by
    rw [hhot]
    norm_num
  obtain ⟨cfg, hcfg⟩ := uwff_caseB_cons dbR "closed_lost" 80 (by decide) hge
  intro heq
  rw [hcfg] at heq
  have hact : (get_active dbR).1.scoring_configs = dbR.scoring_configs := rfl
  rw [hact] at heq
  have hlen := congrArg List.length heq
  simp at hlen

end LeadOps
